import Mathlib

/-!
Kitchen Bot webhook (`src/server.js`).

A shallow embedding of the Dialogflow webhook handler of `src/server.js`: the
three module-level variables `orders`, `stock` and `orderCounter` become one
explicit `State`, and the body of `app.post("/webhook", ...)` becomes the pure
function `webhook : State → String → Params → Outcome`.

Conventions of the embedding.

* Request data is JSON, so parameter values are `JSValue`s: `undefined` (the
  key is absent), `null`, booleans, numbers, strings, arrays and objects.
* JavaScript numbers are modelled by `Int`.  Every number the handler computes
  is an integer derived from the seed `1000` by `++` and by `+`/`-` with list
  lengths; integer arithmetic on doubles is exact below `2 ^ 53`, and the
  decimal rendering of an integer is its usual numeral below `10 ^ 21`.
  Fractional JSON numbers are outside the model.  `NaN` (the only non-integer
  the handler can compute, through `parseInt`) is `none` in `Option Int`.
  Statements that print or compare a number taken from a request say so with
  `isExactInteger` or `rendersExactly`, the range on which `Int` and the
  double agree.
* A template literal converts each interpolated value with the abstract
  operation `ToString`.  On an object this is `OrdinaryToPrimitive`, which
  raises a `TypeError` when the object has no callable `toString`/`valueOf`
  producing a primitive; a JSON object with an own key `"toString"` is such
  an object.  `toStr` therefore returns an `Option`, and a handler whose
  response could not be built has `response = none` (the exception leaves the
  route handler; no response body is produced by it).  State changes made
  before the exception persist, exactly as in the source.
* `stock` is an object literal, so reading `stock[key]` walks its prototype
  chain (`Object.prototype` initially) and writing `stock["__proto__"]` runs
  the `__proto__` setter.  Both are modelled.
-/

namespace KitchenBot

/-! JavaScript values -/

/-- JSON values as they arrive in a request body, plus `undefined` for an
absent property. -/
inductive JSValue where
  | undefined
  | null
  | bool (b : Bool)
  | num (n : Int)
  | str (s : String)
  | arr (items : List JSValue)
  | obj (fields : List (String × JSValue))

/-- `Number::toString` on an integer: the decimal numeral, with a leading
minus sign for negative numbers.  This is what the code prints for every
integer of magnitude below `2 ^ 53` (see `isExactInteger`); beyond it a
JavaScript number is a rounded double, printed with its shortest digits and
in exponent form from `10 ^ 21`, which the embedding does not reproduce. -/
def numberToString (n : Int) : String :=
  match n with
  | Int.ofNat m => Nat.repr m
  | Int.negSucc m => "-" ++ Nat.repr (m + 1)

/-- Rendering of a number that may be `NaN` (`none`). -/
def numberText : Option Int → String
  | none => "NaN"
  | some n => numberToString n

/-- Own-property lookup in a parsed JSON object. -/
def getOwn (fields : List (String × JSValue)) (key : String) : Option JSValue :=
  match fields with
  | [] => none
  | (k, v) :: rest => if k = key then some v else getOwn rest key

/-- Whether a parsed JSON object has an own property `key`. -/
def hasOwn (fields : List (String × JSValue)) (key : String) : Bool :=
  (getOwn fields key).isSome

mutual
/-- The abstract operation `ToString` used by template literals, `parseInt`
and property keys.  `none` stands for the `TypeError` of
`OrdinaryToPrimitive`: an object whose own `toString` is not callable (every
JSON value is non-callable) falls through to `valueOf`, which is either also
an own non-callable value or `Object.prototype.valueOf`, returning the object
itself, so no primitive is obtained.  Arrays convert through
`Array.prototype.join`. -/
def toStr : JSValue → Option String
  | JSValue.undefined => some "undefined"
  | JSValue.null => some "null"
  | JSValue.bool b => some (if b then "true" else "false")
  | JSValue.num n => some (numberToString n)
  | JSValue.str s => some s
  | JSValue.arr items => joinElements items
  | JSValue.obj fields =>
    if hasOwn fields "toString" then none else some "[object Object]"
/-- The call `Array.prototype.join(",")`: `undefined` and `null` elements
contribute the empty string, every other element its `ToString`. -/
def joinElements : List JSValue → Option String
  | [] => some ""
  | [x] => elementText x
  | x :: y :: rest =>
    match elementText x, joinElements (y :: rest) with
    | some a, some b => some (a ++ "," ++ b)
    | _, _ => none
/-- One element of a joined array. -/
def elementText : JSValue → Option String
  | JSValue.undefined => some ""
  | JSValue.null => some ""
  | JSValue.bool b => some (if b then "true" else "false")
  | JSValue.num n => some (numberToString n)
  | JSValue.str s => some s
  | JSValue.arr items => joinElements items
  | JSValue.obj fields =>
    if hasOwn fields "toString" then none else some "[object Object]"
end

/-- The abstract operation `ToBoolean`: `undefined`, `null`, `false`, `0` and
the empty string are falsy, everything else (arrays and objects included) is
truthy. -/
def truthy : JSValue → Bool
  | JSValue.undefined => false
  | JSValue.null => false
  | JSValue.bool b => b
  | JSValue.num n => n != 0
  | JSValue.str s => s != ""
  | JSValue.arr _ => true
  | JSValue.obj _ => true

/-- The operator `a || b`. -/
def jsOr (a b : JSValue) : JSValue :=
  if truthy a then a else b

/-! `parseInt` -/

/-- The characters `StrWhiteSpaceChar` skips: white space and line
terminators. -/
def isStrWhiteSpace (c : Char) : Bool :=
  let n := c.toNat
  n = 0x9 || n = 0xA || n = 0xB || n = 0xC || n = 0xD || n = 0x20 || n = 0xA0 ||
  n = 0x1680 || (0x2000 ≤ n && n ≤ 0x200A) || n = 0x2028 || n = 0x2029 ||
  n = 0x202F || n = 0x205F || n = 0x3000 || n = 0xFEFF

/-- The value of a digit in the given radix (10 or 16), if it is one. -/
def digitValue (radix : Nat) (c : Char) : Option Nat :=
  let n := c.toNat
  if 48 ≤ n ∧ n ≤ 57 then some (n - 48)
  else if radix = 16 ∧ 97 ≤ n ∧ n ≤ 102 then some (n - 87)
  else if radix = 16 ∧ 65 ≤ n ∧ n ≤ 70 then some (n - 55)
  else none

/-- Reads the longest run of radix digits at the front of `cs`, accumulating
its value; returns the value and the number of digits read. -/
def readDigits (radix : Nat) (acc count : Nat) (cs : List Char) : Nat × Nat :=
  match cs with
  | [] => (acc, count)
  | c :: rest =>
    match digitValue radix c with
    | some d => readDigits radix (acc * radix + d) (count + 1) rest
    | none => (acc, count)

/-- The call `parseInt(string)` with no radix argument: skip leading white
space, read an optional sign, an optional `0x`/`0X` prefix (radix 16,
otherwise radix 10) and the longest run of digits; trailing characters are
ignored; `NaN` (`none`) when there is no digit.  The result is the exact
integer read; it is the number the code computes whenever its magnitude is
below `2 ^ 53` (see `isExactInteger`), beyond which the code rounds to a
double. -/
def parseIntChars (cs : List Char) : Option Int :=
  let trimmed := cs.dropWhile isStrWhiteSpace
  let signed : Bool × List Char :=
    match trimmed with
    | '-' :: rest => (true, rest)
    | '+' :: rest => (false, rest)
    | _ => (false, trimmed)
  let based : Nat × List Char :=
    match signed.2 with
    | '0' :: 'x' :: rest => (16, rest)
    | '0' :: 'X' :: rest => (16, rest)
    | _ => (10, signed.2)
  let read := readDigits based.1 0 0 based.2
  if read.2 = 0 then none
  else if signed.1 then some (-(read.1 : Int)) else some (read.1 : Int)

/-- The call `parseInt(value)`: the argument is first converted with
`ToString` (which may raise, outer `none`), then parsed (inner `none` is
`NaN`). -/
def parseInt (v : JSValue) : Option (Option Int) :=
  match toStr v with
  | none => none
  | some s => some (parseIntChars s.toList)

/-! The `stock` object -/

/-- What a property read on `stock` can produce: a JSON value stored in it
(or inherited from a JSON value installed as its prototype), a built-in
function inherited from `Object.prototype` or `Array.prototype`, or the
object `Object.prototype` itself (through the `__proto__` getter). -/
inductive Looked where
  | value (v : JSValue)
  | nativeFunction (name : String)
  | objectPrototype

/-- The `[[Prototype]]` of `stock`: `Object.prototype` for the object literal
of the source; a parsed JSON object or array, or `null`, once the `__proto__`
setter has run with such a value. -/
inductive StockProto where
  | objectPrototype
  | jsonObject (fields : List (String × JSValue))
  | jsonArray (items : List JSValue)
  | null

/-- The object `stock`: its own properties and its prototype. -/
structure Stock where
  own : List (String × JSValue)
  proto : StockProto

/-- The own data properties of `Object.prototype` (all of them built-in
functions); `__proto__`, its one accessor property, is handled apart. -/
def objectPrototypeNames : List String :=
  ["constructor", "__defineGetter__", "__defineSetter__", "hasOwnProperty",
   "__lookupGetter__", "__lookupSetter__", "isPrototypeOf",
   "propertyIsEnumerable", "toString", "valueOf", "toLocaleString"]

/-- The own string-keyed properties of `Array.prototype` other than `length`
(ECMAScript 2023), all of them built-in functions. -/
def arrayPrototypeNames : List String :=
  ["constructor", "at", "concat", "copyWithin", "fill", "find", "findIndex",
   "findLast", "findLastIndex", "lastIndexOf", "pop", "push", "reverse",
   "shift", "unshift", "slice", "sort", "splice", "includes", "indexOf",
   "join", "keys", "entries", "values", "forEach", "filter", "flat",
   "flatMap", "map", "every", "some", "reduce", "reduceRight",
   "toLocaleString", "toString", "toReversed", "toSorted", "toSpliced",
   "with"]

/-- The value `stock.__proto__` read through the getter inherited from
`Object.prototype`: the prototype of the receiver. -/
def protoValue : StockProto → Looked
  | StockProto.objectPrototype => Looked.objectPrototype
  | StockProto.jsonObject fields => Looked.value (JSValue.obj fields)
  | StockProto.jsonArray items => Looked.value (JSValue.arr items)
  | StockProto.null => Looked.value JSValue.null

/-- A property read that has reached `Object.prototype`; `receiver` is the
prototype of `stock`, which the `__proto__` getter returns. -/
def objectPrototypeGet (receiver : StockProto) (key : String) : Looked :=
  if key = "__proto__" then protoValue receiver
  else if key = "constructor" then Looked.nativeFunction "Object"
  else if key ∈ objectPrototypeNames then Looked.nativeFunction key
  else Looked.value JSValue.undefined

/-- The element of a JSON array at the property key `key`, when `key` is the
canonical numeral of an index below the length. -/
def arrayIndexGet (items : List JSValue) (key : String) : Option JSValue :=
  (List.range items.length).findSome?
    (fun i => if Nat.repr i = key then items.get? i else none)

/-- The read `stock[key]` (`OrdinaryGet`): own properties first, then the
prototype chain. -/
def stockGet (stock : Stock) (key : String) : Looked :=
  match getOwn stock.own key with
  | some v => Looked.value v
  | none =>
    match stock.proto with
    | StockProto.null => Looked.value JSValue.undefined
    | StockProto.objectPrototype => objectPrototypeGet stock.proto key
    | StockProto.jsonObject fields =>
      match getOwn fields key with
      | some v => Looked.value v
      | none => objectPrototypeGet stock.proto key
    | StockProto.jsonArray items =>
      match arrayIndexGet items key with
      | some v => Looked.value v
      | none =>
        if key = "length" then Looked.value (JSValue.num items.length)
        else if key = "constructor" then Looked.nativeFunction "Array"
        else if key ∈ arrayPrototypeNames then Looked.nativeFunction key
        else objectPrototypeGet stock.proto key

/-- Creates or overwrites the own property `key`. -/
def setOwn (fields : List (String × JSValue)) (key : String) (v : JSValue) :
    List (String × JSValue) :=
  match fields with
  | [] => [(key, v)]
  | (k, w) :: rest => if k = key then (k, v) :: rest else (k, w) :: setOwn rest key v

/-- Whether the assignment `stock[key] = ...` reaches the `__proto__` setter
of `Object.prototype`: the key is `__proto__`, `stock` has no own property of
that name, and neither has a JSON object installed as its prototype, and the
chain does reach `Object.prototype`. -/
def reachesProtoSetter (stock : Stock) (key : String) : Bool :=
  key = "__proto__" && !(hasOwn stock.own key) &&
    (match stock.proto with
     | StockProto.objectPrototype => true
     | StockProto.jsonObject fields => !(hasOwn fields key)
     | StockProto.jsonArray _ => true
     | StockProto.null => false)

/-- The assignment `stock[key] = v` (`OrdinarySet`).  Every inherited data
property on the chain is writable, so the assignment creates or overwrites an
own property of `stock`, except when it reaches the `__proto__` setter: that
one replaces the prototype when `v` is an object, an array or `null`, and does
nothing for any other value. -/
def stockSet (stock : Stock) (key : String) (v : JSValue) : Stock :=
  if reachesProtoSetter stock key then
    match v with
    | JSValue.obj fields => { stock with proto := StockProto.jsonObject fields }
    | JSValue.arr items => { stock with proto := StockProto.jsonArray items }
    | JSValue.null => { stock with proto := StockProto.null }
    | _ => stock
  else { stock with own := setOwn stock.own key v }

/-- The abstract operation `ToBoolean` on the result of a property read. -/
def lookedTruthy : Looked → Bool
  | Looked.value v => truthy v
  | Looked.nativeFunction _ => true
  | Looked.objectPrototype => true

/-- The abstract operation `ToString` on the result of a property read. -/
def lookedToStr : Looked → Option String
  | Looked.value v => toStr v
  | Looked.nativeFunction name => some ("function " ++ name ++ "() \x7b [native code] \x7d")
  | Looked.objectPrototype => some "[object Object]"

/-! State, requests and responses -/

/-- An element of `orders`: the object literal built by 'Receive Order'. -/
structure Order where
  order_id : Int
  order_type : JSValue
  table_number : JSValue
  items : JSValue
  status : JSValue

/-- The module-level variables `orders`, `stock` and `orderCounter`. -/
structure State where
  orders : List Order
  stock : Stock
  orderCounter : Int

/-- The state after module initialisation (lines 12-20 of `server.js`). -/
def initialState : State :=
  { orders := []
    stock :=
      { own := [("rice", JSValue.num 50), ("chicken", JSValue.num 30),
                ("salmon", JSValue.num 20), ("prawns", JSValue.num 15),
                ("noodles", JSValue.num 40)]
        proto := StockProto.objectPrototype }
    orderCounter := 1000 }

/-- The object `req.body.queryResult.parameters` after JSON parsing. -/
abbrev Params := List (String × JSValue)

/-- The read `parameters.key`: `undefined` when the key is absent. -/
def Params.get (parameters : Params) (key : String) : JSValue :=
  match getOwn parameters key with
  | some v => v
  | none => JSValue.undefined

/-- The `payload` member of a response body, one shape per handler that
sends one. -/
inductive Payload where
  | order (o : Order)
  | notify (order_id : JSValue) (table_number : JSValue) (notify : Bool)
  | stockAlert (ingredient_name : JSValue) (stock_status : String)
  | stockLevel (ingredient_name : JSValue) (stock_level : JSValue)

/-- The object passed to `res.json`. -/
structure Response where
  fulfillmentText : String
  payload : Option Payload

/-- The effect of one request: the state afterwards and the response body, or
`none` when building the response raised a `TypeError`. -/
structure Outcome where
  state : State
  response : Option Response

/-! The handlers, branch by branch -/

/-- The test `o.order_id === orderId`, where `orderId` is the result of
`parseInt` (`NaN` equals nothing). -/
def idMatches (orderId : Option Int) (o : Order) : Bool :=
  match orderId with
  | none => false
  | some n => o.order_id = n

/-- The call `orders.find(o => o.order_id === orderId)`. -/
def findOrder (orders : List Order) (orderId : Option Int) : Option Order :=
  match orders with
  | [] => none
  | o :: rest => if idMatches orderId o then some o else findOrder rest orderId

/-- The call `orders.findIndex(o => o.order_id === orderId)`, with `none` for
the result `-1`. -/
def findIndex (orders : List Order) (orderId : Option Int) : Option Nat :=
  match orders with
  | [] => none
  | o :: rest =>
    if idMatches orderId o then some 0
    else (findIndex rest orderId).map (fun i => i + 1)

/-- The call `orders.splice(index, 1)`: removes the element at `index`. -/
def splice (orders : List Order) (index : Nat) : List Order :=
  match orders, index with
  | [], _ => []
  | _ :: rest, 0 => rest
  | o :: rest, i + 1 => o :: splice rest i

/-- The effect on `orders` of `order.status = status`, where `order` is the
object returned by `orders.find`: the first element with a matching id is
updated in place. -/
def assignStatus (orders : List Order) (orderId : Option Int) (status : JSValue) :
    List Order :=
  match orders with
  | [] => []
  | o :: rest =>
    if idMatches orderId o then { o with status := status } :: rest
    else o :: assignStatus rest orderId status

/-- Branch 'Receive Order' (lines 28-48). -/
def receiveOrder (s : State) (parameters : Params) : Outcome :=
  let orderType := parameters.get "order_type"
  let tableNum := jsOr (parameters.get "table_number") (JSValue.str "N/A")
  let items := parameters.get "food_items"
  let orderId := s.orderCounter + 1
  let order : Order :=
    { order_id := orderId, order_type := orderType, table_number := tableNum,
      items := items, status := JSValue.str "new" }
  { state := { s with orderCounter := orderId, orders := s.orders ++ [order] }
    response :=
      match toStr orderType, toStr items, toStr tableNum with
      | some t, some i, some n =>
        some { fulfillmentText :=
                 "✅ Order #" ++ numberToString orderId ++ " received: " ++ t ++
                 ", items: " ++ i ++ ", table: " ++ n ++ ". Added to kitchen queue."
               payload := some (Payload.order order) }
      | _, _, _ => none }

/-- Branch 'Update Preparation Status' (lines 51-67). -/
def updatePreparationStatus (s : State) (parameters : Params) : Outcome :=
  match parseInt (parameters.get "order_id") with
  | none => { state := s, response := none }
  | some orderId =>
    let status := parameters.get "status"
    match findOrder s.orders orderId with
    | some order =>
      { state := { s with orders := assignStatus s.orders orderId status }
        response :=
          match toStr status with
          | some t =>
            some { fulfillmentText :=
                     "🍳 Order #" ++ numberText orderId ++ " status updated to " ++ t ++ "."
                   payload := some (Payload.order { order with status := status }) }
          | none => none }
    | none =>
      { state := s
        response :=
          some { fulfillmentText := "⚠️ Order #" ++ numberText orderId ++ " not found."
                 payload := none } }

/-- Branch 'Notify Waitstaff' (lines 70-82). -/
def notifyWaitstaff (s : State) (parameters : Params) : Outcome :=
  let tableNum := jsOr (parameters.get "table_number") (JSValue.str "N/A")
  let orderId := jsOr (parameters.get "order_id") (JSValue.str "Unknown")
  { state := s
    response :=
      match toStr orderId, toStr tableNum with
      | some o, some t =>
        some { fulfillmentText :=
                 "📢 Waitstaff notified: Order #" ++ o ++ " (Table " ++ t ++
                 ") is ready to serve."
               payload := some (Payload.notify orderId tableNum true) }
      | _, _ => none }

/-- Branch 'Stock Low Alert' (lines 85-95). -/
def stockLowAlert (s : State) (parameters : Params) : Outcome :=
  let ingredient := parameters.get "ingredient_name"
  { state := s
    response :=
      match toStr ingredient with
      | some i =>
        some { fulfillmentText :=
                 "⚠️ Stock Alert: " ++ i ++ " is running low. Admin notified."
               payload := some (Payload.stockAlert ingredient "low") }
      | none => none }

/-- One line of the listing of 'Show Current Orders' (line 105). -/
def orderLine (o : Order) : Option String :=
  match toStr o.table_number, toStr o.items, toStr o.status with
  | some t, some i, some st =>
    some ("#" ++ numberToString o.order_id ++ " (Table " ++ t ++ "): " ++ i ++
          " [" ++ st ++ "]")
  | _, _, _ => none

/-- The call `orders.map(o => ...)` of line 104-105; `none` when one of the
template literals raises. -/
def orderLines (orders : List Order) : Option (List String) :=
  match orders with
  | [] => some []
  | o :: rest =>
    match orderLine o, orderLines rest with
    | some l, some ls => some (l :: ls)
    | _, _ => none

/-- Branch 'Show Current Orders' (lines 98-110). -/
def showCurrentOrders (s : State) : Outcome :=
  if s.orders.length = 0 then
    { state := s
      response :=
        some { fulfillmentText := "📭 No current orders in the queue.", payload := none } }
  else
    { state := s
      response :=
        match orderLines s.orders with
        | some lines =>
          some { fulfillmentText := "📋 Current Orders:\n" ++ "\n".intercalate lines
                 payload := none }
        | none => none }

/-- Branch 'Complete Order' (lines 113-127). -/
def completeOrder (s : State) (parameters : Params) : Outcome :=
  match parseInt (parameters.get "order_id") with
  | none => { state := s, response := none }
  | some orderId =>
    match findIndex s.orders orderId with
    | some index =>
      { state := { s with orders := splice s.orders index }
        response :=
          some { fulfillmentText :=
                   "✅ Order #" ++ numberText orderId ++
                   " has been completed and removed from the kitchen queue."
                 payload := none } }
    | none =>
      { state := s
        response :=
          some { fulfillmentText := "⚠️ Order #" ++ numberText orderId ++ " not found."
                 payload := none } }

/-- Branch 'Update Stock Level' (lines 130-142).  The property key is
`ToString(ingredient)`; when that raises nothing has been written yet. -/
def updateStockLevel (s : State) (parameters : Params) : Outcome :=
  let ingredient := parameters.get "ingredient_name"
  let amount := parameters.get "amount"
  match toStr ingredient with
  | none => { state := s, response := none }
  | some key =>
    { state := { s with stock := stockSet s.stock key amount }
      response :=
        match toStr amount with
        | some a =>
          some { fulfillmentText :=
                   "🔄 Stock for " ++ key ++ " updated to " ++ a ++ " units."
                 payload := some (Payload.stockLevel ingredient amount) }
        | none => none }

/-- Branch 'Check Stock Level' (lines 145-152): `stock[ingredient] || 0`. -/
def checkStockLevel (s : State) (parameters : Params) : Outcome :=
  let ingredient := parameters.get "ingredient_name"
  match toStr ingredient with
  | none => { state := s, response := none }
  | some key =>
    let stored := stockGet s.stock key
    let amount := if lookedTruthy stored then stored else Looked.value (JSValue.num 0)
    { state := s
      response :=
        match lookedToStr amount with
        | some a =>
          some { fulfillmentText :=
                   "📦 Current stock of " ++ key ++ ": " ++ a ++ " units."
                 payload := none }
        | none => none }

/-- Branch 'Daily Summary' (lines 155-163). -/
def dailySummary (s : State) : Outcome :=
  let total : Int := s.orders.length
  let completed : Int := 1000 + s.orderCounter - total
  let pending : Int := total
  { state := s
    response :=
      some { fulfillmentText :=
               "📊 Daily Summary:\nTotal Orders: " ++ numberToString (completed + pending) ++
               "\nCompleted: " ++ numberToString completed ++
               "\nPending: " ++ numberToString pending
             payload := none } }

/-- Branch 'Clear Queue' (lines 166-171). -/
def clearQueue (s : State) : Outcome :=
  { state := { s with orders := [] }
    response := some { fulfillmentText := "🗑️ All kitchen orders cleared.", payload := none } }

/-- The default fallback (lines 174-176). -/
def fallback (s : State) : Outcome :=
  { state := s
    response :=
      some { fulfillmentText := "❓ Sorry, I didn’t understand that request."
             payload := none } }

/-- The handler of `app.post("/webhook", ...)`: the chain of
`if (intent === ...)` tests in source order. -/
def webhook (s : State) (intent : String) (parameters : Params) : Outcome :=
  if intent = "Receive Order" then receiveOrder s parameters
  else if intent = "Update Preparation Status" then updatePreparationStatus s parameters
  else if intent = "Notify Waitstaff" then notifyWaitstaff s parameters
  else if intent = "Stock Low Alert" then stockLowAlert s parameters
  else if intent = "Show Current Orders" then showCurrentOrders s
  else if intent = "Complete Order" then completeOrder s parameters
  else if intent = "Update Stock Level" then updateStockLevel s parameters
  else if intent = "Check Stock Level" then checkStockLevel s parameters
  else if intent = "Daily Summary" then dailySummary s
  else if intent = "Clear Queue" then clearQueue s
  else fallback s

/-! Sequences of requests -/

/-- One webhook request, reduced to what the handler reads. -/
structure Event where
  intent : String
  parameters : Params

/-- The state after one request. -/
def step (s : State) (e : Event) : State :=
  (webhook s e.intent e.parameters).state

/-- The state after a sequence of requests. -/
def run (s : State) (events : List Event) : State :=
  match events with
  | [] => s
  | e :: rest => run (step s e) rest

/-- The id given to the order that a request appends to `orders`, if the
request is a 'Receive Order': the `order_id` of the last element of `orders`
after the request. -/
def assignedId (s : State) (e : Event) : Option Int :=
  if e.intent = "Receive Order" then
    (step s e).orders.getLast?.map (fun o => o.order_id)
  else none

/-- The ids assigned by the 'Receive Order' requests of a sequence, in the
order of the requests. -/
def assignedIds (s : State) (events : List Event) : List Int :=
  match events with
  | [] => []
  | e :: rest =>
    match assignedId s e with
    | some id => id :: assignedIds (step s e) rest
    | none => assignedIds (step s e) rest

/-! Vocabulary of the statements -/

/-- The ten intent names tested by the handler, in source order. -/
def handledIntents : List String :=
  ["Receive Order", "Update Preparation Status", "Notify Waitstaff", "Stock Low Alert",
   "Show Current Orders", "Complete Order", "Update Stock Level", "Check Stock Level",
   "Daily Summary", "Clear Queue"]

/-- The listing line of an order: `line` is `#id (Table t): items [status]`
built from the text of the fields of `o`. -/
def IsLineOf (o : Order) (line : String) : Prop :=
  ∃ t i st : String,
    toStr o.table_number = some t ∧ toStr o.items = some i ∧ toStr o.status = some st ∧
    line = "#" ++ numberToString o.order_id ++ " (Table " ++ t ++ "): " ++ i ++
           " [" ++ st ++ "]"

/-- Whether a value is a number that is not negative. -/
def isNonNegativeNumber : JSValue → Bool
  | JSValue.num n => decide (0 ≤ n)
  | _ => false

/-- The integers on which the embedding of numbers is exact: those of
magnitude below `2 ^ 53`, which a double holds without rounding and which
`Number::toString` prints as their plain numeral. -/
def isExactInteger (n : Int) : Bool :=
  decide (n.natAbs < 9007199254740992)

mutual
/-- Whether `toStr` gives the text the code gives: every number that the
conversion prints, directly or as an element of an array, is exact. -/
def rendersExactly : JSValue → Bool
  | JSValue.num n => isExactInteger n
  | JSValue.arr items => allRenderExactly items
  | _ => true
/-- The elements of an array all render exactly. -/
def allRenderExactly : List JSValue → Bool
  | [] => true
  | x :: rest => rendersExactly x && allRenderExactly rest
end

/-- The invariant of `orders`: ids increase strictly along the sequence and
lie between 1001 and the counter, which never falls below its seed. -/
def OrdersInvariant (s : State) : Prop :=
  (s.orders.map (fun o => o.order_id)).Pairwise (fun a b => a < b) ∧
  (∀ o ∈ s.orders, 1001 ≤ o.order_id ∧ o.order_id ≤ s.orderCounter) ∧
  1000 ≤ s.orderCounter

/-- The shape of a decimal numeral that `parseInt` relies on: it starts with
a digit, and what follows the first digit is nothing or another digit. -/
def StartsWithDigits (cs : List Char) : Prop :=
  ∃ (d : Nat) (rest : List Char), d < 10 ∧ cs = Nat.digitChar d :: rest ∧
    (rest = [] ∨ ∃ (e : Nat) (more : List Char), e < 10 ∧ rest = Nat.digitChar e :: more)

/-! Frame lemmas: what each branch leaves alone -/

theorem updatePreparationStatus_frame (s : State) (p : Params) :
    (updatePreparationStatus s p).state.orderCounter = s.orderCounter ∧
    (updatePreparationStatus s p).state.stock = s.stock := by
  unfold updatePreparationStatus
  split
  · exact ⟨rfl, rfl⟩
  · split <;> exact ⟨rfl, rfl⟩

theorem completeOrder_frame (s : State) (p : Params) :
    (completeOrder s p).state.orderCounter = s.orderCounter ∧
    (completeOrder s p).state.stock = s.stock := by
  unfold completeOrder
  split
  · exact ⟨rfl, rfl⟩
  · split <;> exact ⟨rfl, rfl⟩

theorem showCurrentOrders_state (s : State) : (showCurrentOrders s).state = s := by
  unfold showCurrentOrders
  split <;> rfl

theorem updateStockLevel_frame (s : State) (p : Params) :
    (updateStockLevel s p).state.orderCounter = s.orderCounter ∧
    (updateStockLevel s p).state.orders = s.orders := by
  cases h : toStr (p.get "ingredient_name") <;> simp [updateStockLevel, h]

theorem checkStockLevel_state (s : State) (p : Params) :
    (checkStockLevel s p).state = s := by
  cases h : toStr (p.get "ingredient_name") <;> simp [checkStockLevel, h]

/-- Only 'Receive Order' moves the counter, and it moves it by one. -/
theorem webhook_orderCounter (s : State) (intent : String) (p : Params) :
    (webhook s intent p).state.orderCounter =
      if intent = "Receive Order" then s.orderCounter + 1 else s.orderCounter := by
  unfold webhook
  split_ifs
  · rfl
  · exact (updatePreparationStatus_frame s p).1
  · rfl
  · rfl
  · rw [showCurrentOrders_state]
  · exact (completeOrder_frame s p).1
  · exact (updateStockLevel_frame s p).1
  · rw [checkStockLevel_state]
  · rfl
  · rfl
  · rfl

theorem step_orderCounter_le (s : State) (e : Event) :
    s.orderCounter ≤ (step s e).orderCounter := by
  unfold step
  rw [webhook_orderCounter]
  split_ifs <;> omega

theorem run_orderCounter_le (events : List Event) :
    ∀ s : State, s.orderCounter ≤ (run s events).orderCounter := by
  induction events with
  | nil => intro s; exact le_refl _
  | cons e rest ih =>
    intro s
    unfold run
    exact le_trans (step_orderCounter_le s e) (ih (step s e))

/-- The id assigned by a 'Receive Order' request is the incremented counter,
which is also the counter afterwards. -/
theorem assignedId_eq (s : State) (e : Event) (id : Int) (h : assignedId s e = some id) :
    id = s.orderCounter + 1 ∧ (step s e).orderCounter = id := by
  unfold assignedId at h
  split_ifs at h with hi
  have hstep : step s e = (receiveOrder s e.parameters).state := by
    unfold step webhook
    rw [if_pos hi]
  rw [hstep] at h ⊢
  simp [receiveOrder] at h
  exact ⟨h.symm, by simp [receiveOrder, h]⟩

/-- Every id assigned along a run is above the counter at its start and at
most the counter at its end. -/
theorem assignedIds_bounds (events : List Event) :
    ∀ s : State, ∀ id ∈ assignedIds s events,
      s.orderCounter < id ∧ id ≤ (run s events).orderCounter := by
  induction events with
  | nil => intro s id h; simp [assignedIds] at h
  | cons e rest ih =>
    intro s id h
    have hmono := step_orderCounter_le s e
    have hrun : s.orderCounter ≤ (step s e).orderCounter := hmono
    unfold assignedIds at h
    unfold run
    cases ha : assignedId s e with
    | none =>
      rw [ha] at h
      have := ih (step s e) id h
      exact ⟨by omega, this.2⟩
    | some j =>
      rw [ha] at h
      have hj := assignedId_eq s e j ha
      rcases List.mem_cons.mp h with h1 | h1
      · subst h1
        refine ⟨by omega, ?_⟩
        rw [← hj.2]
        exact run_orderCounter_le rest (step s e)
      · have := ih (step s e) id h1
        exact ⟨by omega, this.2⟩

theorem assignedIds_pairwise (events : List Event) :
    ∀ s : State, (assignedIds s events).Pairwise (fun a b => a < b) := by
  induction events with
  | nil => intro s; simp [assignedIds]
  | cons e rest ih =>
    intro s
    unfold assignedIds
    cases ha : assignedId s e with
    | none => exact ih (step s e)
    | some j =>
      have hj := assignedId_eq s e j ha
      refine List.Pairwise.cons ?_ (ih (step s e))
      intro b hb
      have := (assignedIds_bounds rest (step s e) b hb).1
      omega

/-! C1 -/

/-- C1. For every sequence of webhook requests starting from the initial
state, the ids assigned by the 'Receive Order' requests are strictly
increasing in request order: each one is greater than every id assigned
earlier, whatever requests occur in between. -/
theorem assigned_ids_strictly_increasing (events : List Event) :
    (assignedIds initialState events).Pairwise (fun earlier later => earlier < later) :=
  assignedIds_pairwise events initialState

/-! C2 -/

/-- C2, counterexample. 'Receive Order' can fail: with `food_items` an object
that has an own key `toString`, the template literal of the response raises a
`TypeError`, so no response is produced (the order has been queued before). -/
theorem receive_order_fails_on_unrenderable_items :
    (webhook initialState "Receive Order"
      [("food_items", JSValue.obj [("toString", JSValue.num 1)])]).response = none ∧
    (webhook initialState "Receive Order"
      [("food_items", JSValue.obj [("toString", JSValue.num 1)])]).state.orders.length = 1 := by
  constructor <;> rfl

/-- C2, amended. For every state with counter `c` and every parameter bag,
'Receive Order' produces the state whose orders are the old orders followed by
exactly one new order, whose counter is `c + 1` and whose stock is unchanged;
the new order has id `c + 1` and status "new"; and whenever the order type,
the items and the (defaulted) table number convert to text, the response
payload is that same order and the response text carries the numeral of
`c + 1` right after "Order #". -/
theorem receive_order_effect (s : State) (parameters : Params) :
    ∃ order : Order,
      order.order_id = s.orderCounter + 1 ∧
      order.status = JSValue.str "new" ∧
      (webhook s "Receive Order" parameters).state =
        { orders := s.orders ++ [order], stock := s.stock,
          orderCounter := s.orderCounter + 1 } ∧
      ∀ t i n : String,
        toStr (parameters.get "order_type") = some t →
        toStr (parameters.get "food_items") = some i →
        toStr (jsOr (parameters.get "table_number") (JSValue.str "N/A")) = some n →
        (webhook s "Receive Order" parameters).response =
          some { fulfillmentText :=
                   "✅ Order #" ++ numberToString (s.orderCounter + 1) ++ " received: " ++ t ++
                   ", items: " ++ i ++ ", table: " ++ n ++ ". Added to kitchen queue."
                 payload := some (Payload.order order) } := by
  refine ⟨{ order_id := s.orderCounter + 1, order_type := parameters.get "order_type",
            table_number := jsOr (parameters.get "table_number") (JSValue.str "N/A"),
            items := parameters.get "food_items", status := JSValue.str "new" },
          rfl, rfl, rfl, ?_⟩
  intro t i n ht hi hn
  simp [webhook, receiveOrder, ht, hi, hn]

/-- C2, witness: a dine-in order for table 5 placed in the initial state. -/
theorem receive_order_effect_witness :
    ∃ order : Order,
      order.order_id = 1001 ∧
      (webhook initialState "Receive Order"
        [("order_type", JSValue.str "dine-in"), ("table_number", JSValue.str "5"),
         ("food_items", JSValue.str "rice")]).response =
        some { fulfillmentText :=
                 "✅ Order #1001 received: dine-in, items: rice, table: 5. Added to kitchen queue."
               payload := some (Payload.order order) } := by
  obtain ⟨order, hid, _, _, hresp⟩ :=
    receive_order_effect initialState
      [("order_type", JSValue.str "dine-in"), ("table_number", JSValue.str "5"),
       ("food_items", JSValue.str "rice")]
  exact ⟨order, hid, hresp "dine-in" "rice" "5" rfl rfl rfl⟩

/-! Lookup lemmas for `orders` -/

theorem findIndex_none_of_no_match (orders : List Order) (k : Option Int)
    (h : ∀ o ∈ orders, idMatches k o = false) : findIndex orders k = none := by
  induction orders with
  | nil => rfl
  | cons o rest ih =>
    have ho := h o (List.mem_cons_self _ _)
    have hrest := ih (fun x hx => h x (List.mem_cons_of_mem _ hx))
    simp [findIndex, ho, hrest]

theorem findOrder_none_of_no_match (orders : List Order) (k : Option Int)
    (h : ∀ o ∈ orders, idMatches k o = false) : findOrder orders k = none := by
  induction orders with
  | nil => rfl
  | cons o rest ih =>
    have ho := h o (List.mem_cons_self _ _)
    have hrest := ih (fun x hx => h x (List.mem_cons_of_mem _ hx))
    simp [findOrder, ho, hrest]

/-- When some element matches, `findIndex` and `splice` cut the list at the
first match. -/
theorem findIndex_splice_of_match (orders : List Order) (k : Option Int)
    (h : ∃ o ∈ orders, idMatches k o = true) :
    ∃ (front : List Order) (hit : Order) (back : List Order) (index : Nat),
      orders = front ++ hit :: back ∧ idMatches k hit = true ∧
      (∀ x ∈ front, idMatches k x = false) ∧
      findIndex orders k = some index ∧ splice orders index = front ++ back := by
  induction orders with
  | nil => obtain ⟨o, ho, _⟩ := h; cases ho
  | cons o rest ih =>
    by_cases hm : idMatches k o = true
    · exact ⟨[], o, rest, 0, rfl, hm, by simp, by simp [findIndex, hm], rfl⟩
    · have hm2 : idMatches k o = false := by simpa using hm
      obtain ⟨x, hx, hxm⟩ := h
      rcases List.mem_cons.mp hx with hxo | hxr
      · subst hxo; rw [hxm] at hm2; cases hm2
      · obtain ⟨front, hit, back, index, hsplit, hhit, hfront, hidx, hspl⟩ := ih ⟨x, hxr, hxm⟩
        refine ⟨o :: front, hit, back, index + 1, by simp [hsplit], hhit, ?_, ?_, ?_⟩
        · intro y hy
          rcases List.mem_cons.mp hy with hyo | hyf
          · subst hyo; exact hm2
          · exact hfront y hyf
        · simp [findIndex, hm2, hidx]
        · simp [splice, hspl]

/-- When some element matches, `findOrder` returns the first match and
`assignStatus` rewrites exactly that element. -/
theorem findOrder_assignStatus_of_match (orders : List Order) (k : Option Int)
    (status : JSValue) (h : ∃ o ∈ orders, idMatches k o = true) :
    ∃ (front : List Order) (hit : Order) (back : List Order),
      orders = front ++ hit :: back ∧ idMatches k hit = true ∧
      (∀ x ∈ front, idMatches k x = false) ∧
      findOrder orders k = some hit ∧
      assignStatus orders k status = front ++ { hit with status := status } :: back := by
  induction orders with
  | nil => obtain ⟨o, ho, _⟩ := h; cases ho
  | cons o rest ih =>
    by_cases hm : idMatches k o = true
    · exact ⟨[], o, rest, rfl, hm, by simp, by simp [findOrder, hm],
        by simp [assignStatus, hm]⟩
    · have hm2 : idMatches k o = false := by simpa using hm
      obtain ⟨x, hx, hxm⟩ := h
      rcases List.mem_cons.mp hx with hxo | hxr
      · subst hxo; rw [hxm] at hm2; cases hm2
      · obtain ⟨front, hit, back, hsplit, hhit, hfront, hfind, hassign⟩ := ih ⟨x, hxr, hxm⟩
        refine ⟨o :: front, hit, back, by simp [hsplit], hhit, ?_, ?_, ?_⟩
        · intro y hy
          rcases List.mem_cons.mp hy with hyo | hyf
          · subst hyo; exact hm2
          · exact hfront y hyf
        · simp [findOrder, hm2, hfind]
        · simp [assignStatus, hm2, hassign]

theorem idMatches_some (n : Int) (o : Order) :
    idMatches (some n) o = true ↔ o.order_id = n := by
  simp [idMatches]

theorem idMatches_false_iff (k : Option Int) (o : Order) :
    idMatches k o = false ↔ some o.order_id ≠ k := by
  cases k with
  | none => simp [idMatches]
  | some n => simp [idMatches]

/-! C3 -/

/-- C3. For every state and every request whose `order_id` parses to an id
`n` carried by at least one open order, 'Complete Order' answers with the
success text and no payload, and the open orders afterwards are the old ones
with exactly the first order of id `n` removed: the orders before it (none of
which has id `n`) and the orders after it are kept, in the same relative
order.  Stock and the id counter are unchanged. -/
theorem complete_order_removes_first_match (s : State) (parameters : Params) (n : Int)
    (hparse : parseInt (parameters.get "order_id") = some (some n))
    (hmatch : ∃ o ∈ s.orders, o.order_id = n) :
    ∃ (front : List Order) (hit : Order) (back : List Order),
      s.orders = front ++ hit :: back ∧ hit.order_id = n ∧
      (∀ x ∈ front, x.order_id ≠ n) ∧
      webhook s "Complete Order" parameters =
        { state := { orders := front ++ back, stock := s.stock,
                     orderCounter := s.orderCounter }
          response :=
            some { fulfillmentText :=
                     "✅ Order #" ++ numberToString n ++
                     " has been completed and removed from the kitchen queue."
                   payload := none } } := by
  have hm : ∃ o ∈ s.orders, idMatches (some n) o = true := by
    obtain ⟨o, ho, hid⟩ := hmatch
    exact ⟨o, ho, (idMatches_some n o).mpr hid⟩
  obtain ⟨front, hit, back, index, hsplit, hhit, hfront, hidx, hspl⟩ :=
    findIndex_splice_of_match s.orders (some n) hm
  refine ⟨front, hit, back, hsplit, (idMatches_some n hit).mp hhit, ?_, ?_⟩
  · intro x hx hxn
    have := hfront x hx
    rw [(idMatches_some n x).mpr hxn] at this
    cases this
  · simp [webhook, completeOrder, hparse, hidx, hspl, numberText]

/-- C3, witness: orders 1001, 1002 and 1003 are placed from the initial state
and the second one is completed. -/
theorem complete_order_removes_first_match_witness :
    ∃ (front : List Order) (hit : Order) (back : List Order),
      (run initialState
        [⟨"Receive Order", []⟩, ⟨"Receive Order", []⟩, ⟨"Receive Order", []⟩]).orders =
        front ++ hit :: back ∧ hit.order_id = 1002 ∧
      (∀ x ∈ front, x.order_id ≠ 1002) ∧
      webhook
        (run initialState
          [⟨"Receive Order", []⟩, ⟨"Receive Order", []⟩, ⟨"Receive Order", []⟩])
        "Complete Order" [("order_id", JSValue.str "1002")] =
        { state := { orders := front ++ back, stock := initialState.stock,
                     orderCounter := 1003 }
          response :=
            some { fulfillmentText :=
                     "✅ Order #1002 has been completed and removed from the kitchen queue."
                   payload := none } } :=
  complete_order_removes_first_match
    (run initialState
      [⟨"Receive Order", []⟩, ⟨"Receive Order", []⟩, ⟨"Receive Order", []⟩])
    [("order_id", JSValue.str "1002")] 1002 (by decide)
    ⟨{ order_id := 1002, order_type := JSValue.undefined, table_number := JSValue.str "N/A",
       items := JSValue.undefined, status := JSValue.str "new" },
     by simp [run, step, webhook, receiveOrder, initialState, Params.get, getOwn, jsOr, truthy],
     rfl⟩

/-! C4 -/

/-- C4, counterexample. An `order_id` that matches no open order does not
always give the "not found" answer: with the open order 1001 and `order_id` an
object that has an own key `toString`, `parseInt` raises a `TypeError` on
line 52, so 'Update Preparation Status' produces no response at all (the state
is unchanged). -/
theorem update_status_raises_on_unrenderable_id :
    webhook (run initialState [⟨"Receive Order", []⟩]) "Update Preparation Status"
        [("order_id", JSValue.obj [("toString", JSValue.num 1)]),
         ("status", JSValue.str "ready")] =
      { state := run initialState [⟨"Receive Order", []⟩], response := none } := by
  rfl

/-- C4, amended. For every state and every request whose `order_id` converts
to text that `parseInt` reads as a value `k`, `NaN` or an integer of magnitude
below `2 ^ 53`, which is the id of no open order, 'Update Preparation Status'
leaves the state (orders, stock and counter) exactly unchanged and answers
with the "not found" text and no payload, whatever `status` is supplied.  For
every request whose `order_id` does not convert to text the state is unchanged
as well, and no response is produced. -/
theorem update_status_not_found (s : State) (parameters : Params) :
    (∀ k : Option Int,
      parseInt (parameters.get "order_id") = some k →
      (∀ n : Int, k = some n → isExactInteger n = true) →
      (∀ o ∈ s.orders, some o.order_id ≠ k) →
      webhook s "Update Preparation Status" parameters =
        { state := s
          response :=
            some { fulfillmentText := "⚠️ Order #" ++ numberText k ++ " not found."
                   payload := none } }) ∧
    (toStr (parameters.get "order_id") = none →
      webhook s "Update Preparation Status" parameters = { state := s, response := none }) := by
  constructor
  · intro k hparse _ hnone
    have hfind : findOrder s.orders k = none :=
      findOrder_none_of_no_match s.orders k
        (fun o ho => (idMatches_false_iff k o).mpr (hnone o ho))
    simp [webhook, updatePreparationStatus, hparse, hfind]
  · intro hraise
    have hparse : parseInt (parameters.get "order_id") = none := by
      simp only [parseInt, hraise]
    simp [webhook, updatePreparationStatus, hparse]

/-- C4, witness: with the open order 1001, id 1002 is looked up with an
arbitrary status. -/
theorem update_status_not_found_witness :
    webhook (run initialState [⟨"Receive Order", []⟩]) "Update Preparation Status"
        [("order_id", JSValue.num 1002), ("status", JSValue.str "ready")] =
      { state := run initialState [⟨"Receive Order", []⟩]
        response :=
          some { fulfillmentText := "⚠️ Order #" ++ numberText (some 1002) ++ " not found."
                 payload := none } } :=
  (update_status_not_found (run initialState [⟨"Receive Order", []⟩])
    [("order_id", JSValue.num 1002), ("status", JSValue.str "ready")]).1 (some 1002)
    (by decide)
    (by
      intro n hn
      cases hn
      decide)
    (by
      intro o ho
      simp [run, step, webhook, receiveOrder, initialState] at ho
      subst ho
      decide)

/-! C5 -/

/-- C5, counterexample. An `order_id` that matches no open order does not
always give the "not found" answer: with the open order 1001 and `order_id` an
object that has an own key `toString`, `parseInt` raises a `TypeError` on
line 114, so 'Complete Order' produces no response at all (the state is
unchanged). -/
theorem complete_order_raises_on_unrenderable_id :
    webhook (run initialState [⟨"Receive Order", []⟩]) "Complete Order"
        [("order_id", JSValue.obj [("toString", JSValue.num 1)])] =
      { state := run initialState [⟨"Receive Order", []⟩], response := none } := by
  rfl

/-- C5, amended. For every state and every request whose `order_id` converts
to text that `parseInt` reads as a value `k`, `NaN` or an integer of magnitude
below `2 ^ 53`, which is the id of no open order, 'Complete Order' leaves the
state (orders, stock and counter) exactly unchanged and answers with the "not
found" text and no payload.  For every request whose `order_id` does not
convert to text the state is unchanged as well, and no response is
produced. -/
theorem complete_order_not_found (s : State) (parameters : Params) :
    (∀ k : Option Int,
      parseInt (parameters.get "order_id") = some k →
      (∀ n : Int, k = some n → isExactInteger n = true) →
      (∀ o ∈ s.orders, some o.order_id ≠ k) →
      webhook s "Complete Order" parameters =
        { state := s
          response :=
            some { fulfillmentText := "⚠️ Order #" ++ numberText k ++ " not found."
                   payload := none } }) ∧
    (toStr (parameters.get "order_id") = none →
      webhook s "Complete Order" parameters = { state := s, response := none }) := by
  constructor
  · intro k hparse _ hnone
    have hfind : findIndex s.orders k = none :=
      findIndex_none_of_no_match s.orders k
        (fun o ho => (idMatches_false_iff k o).mpr (hnone o ho))
    simp [webhook, completeOrder, hparse, hfind]
  · intro hraise
    have hparse : parseInt (parameters.get "order_id") = none := by
      simp only [parseInt, hraise]
    simp [webhook, completeOrder, hparse]

/-- C5, witness: after one order (id 1001) is placed, id 1002 is completed. -/
theorem complete_order_not_found_witness :
    webhook (run initialState [⟨"Receive Order", []⟩]) "Complete Order"
        [("order_id", JSValue.str "1002")] =
      { state := run initialState [⟨"Receive Order", []⟩]
        response :=
          some { fulfillmentText := "⚠️ Order #" ++ numberText (some 1002) ++ " not found."
                 payload := none } } :=
  (complete_order_not_found (run initialState [⟨"Receive Order", []⟩])
    [("order_id", JSValue.str "1002")]).1 (some 1002) (by decide)
    (by
      intro n hn
      cases hn
      decide)
    (by
      intro o ho
      simp [run, step, webhook, receiveOrder, initialState] at ho
      subst ho
      decide)

/-! C6 -/

/-- C6, counterexample. A status value can make the request fail: with the
open order 1001 and `status` an object that has an own key `toString`, the
status is written but the response raises a `TypeError`, so there is no
payload. -/
theorem update_status_fails_on_unrenderable_status :
    (webhook (run initialState [⟨"Receive Order", []⟩]) "Update Preparation Status"
      [("order_id", JSValue.num 1001),
       ("status", JSValue.obj [("toString", JSValue.num 1)])]).response = none := by
  rfl

/-- C6, amended. For every state, every request whose `order_id` parses to an
id `n` carried by an open order, and every status value `status`, 'Update
Preparation Status' changes only the status field of the first order with
that id: its id, type, table number and items, every other order, the length
and order of the sequence, stock and the id counter are unchanged.  Whenever
`status` converts to text, the payload is the updated order. -/
theorem update_status_changes_only_status (s : State) (parameters : Params) (n : Int)
    (hparse : parseInt (parameters.get "order_id") = some (some n))
    (hmatch : ∃ o ∈ s.orders, o.order_id = n) :
    ∃ (front : List Order) (hit : Order) (back : List Order),
      s.orders = front ++ hit :: back ∧ hit.order_id = n ∧
      (∀ x ∈ front, x.order_id ≠ n) ∧
      (webhook s "Update Preparation Status" parameters).state =
        { orders :=
            front ++
              { order_id := hit.order_id, order_type := hit.order_type,
                table_number := hit.table_number, items := hit.items,
                status := parameters.get "status" } :: back
          stock := s.stock, orderCounter := s.orderCounter } ∧
      ∀ t : String, toStr (parameters.get "status") = some t →
        (webhook s "Update Preparation Status" parameters).response =
          some { fulfillmentText :=
                   "🍳 Order #" ++ numberToString n ++ " status updated to " ++ t ++ "."
                 payload :=
                   some (Payload.order
                     { order_id := hit.order_id, order_type := hit.order_type,
                       table_number := hit.table_number, items := hit.items,
                       status := parameters.get "status" }) } := by
  have hm : ∃ o ∈ s.orders, idMatches (some n) o = true := by
    obtain ⟨o, ho, hid⟩ := hmatch
    exact ⟨o, ho, (idMatches_some n o).mpr hid⟩
  obtain ⟨front, hit, back, hsplit, hhit, hfront, hfind, hassign⟩ :=
    findOrder_assignStatus_of_match s.orders (some n) (parameters.get "status") hm
  refine ⟨front, hit, back, hsplit, (idMatches_some n hit).mp hhit, ?_, ?_, ?_⟩
  · intro x hx hxn
    have := hfront x hx
    rw [(idMatches_some n x).mpr hxn] at this
    cases this
  · simp [webhook, updatePreparationStatus, hparse, hfind, hassign]
  · intro t ht
    simp [webhook, updatePreparationStatus, hparse, hfind, ht, numberText]

/-- C6, witness: order 1001 is placed and its status set to "cooking". -/
theorem update_status_changes_only_status_witness :
    ∃ (front : List Order) (hit : Order) (back : List Order),
      (run initialState [⟨"Receive Order", []⟩]).orders = front ++ hit :: back ∧
      hit.order_id = 1001 ∧
      (webhook (run initialState [⟨"Receive Order", []⟩]) "Update Preparation Status"
        [("order_id", JSValue.num 1001), ("status", JSValue.str "cooking")]).response =
        some { fulfillmentText := "🍳 Order #1001 status updated to cooking."
               payload :=
                 some (Payload.order
                   { order_id := hit.order_id, order_type := hit.order_type,
                     table_number := hit.table_number, items := hit.items,
                     status := JSValue.str "cooking" }) } := by
  obtain ⟨front, hit, back, hsplit, hid, _, _, hresp⟩ :=
    update_status_changes_only_status (run initialState [⟨"Receive Order", []⟩])
      [("order_id", JSValue.num 1001), ("status", JSValue.str "cooking")] 1001
      (by decide)
      ⟨{ order_id := 1001, order_type := JSValue.undefined,
         table_number := JSValue.str "N/A", items := JSValue.undefined,
         status := JSValue.str "new" },
       by simp [run, step, webhook, receiveOrder, initialState, Params.get, getOwn, jsOr,
                truthy],
       rfl⟩
  exact ⟨front, hit, back, hsplit, hid, hresp "cooking" rfl⟩

/-! C7 -/

/-- C7. For every state, 'Clear Queue' produces the state with no open
orders and the same stock and id counter; consequently, after any sequence of
requests from the initial state followed by a 'Clear Queue', the next
'Receive Order' is assigned an id greater than every id assigned before the
clear. -/
theorem clear_queue_keeps_stock_and_counter (s : State) (parameters next : Params)
    (events : List Event) :
    (webhook s "Clear Queue" parameters).state =
      { orders := [], stock := s.stock, orderCounter := s.orderCounter } ∧
    ∃ id : Int,
      assignedId (webhook (run initialState events) "Clear Queue" parameters).state
        ⟨"Receive Order", next⟩ = some id ∧
      ∀ earlier ∈ assignedIds initialState events, earlier < id := by
  refine ⟨by simp [webhook, clearQueue], (run initialState events).orderCounter + 1, ?_, ?_⟩
  · simp [assignedId, step, webhook, clearQueue, receiveOrder]
  · intro earlier hmem
    have := (assignedIds_bounds events initialState earlier hmem).2
    omega

/-! C8 -/

/-- What 'Daily Summary' computes in every state: `completed` is
`1000 + orderCounter - orders.length`, and the reported total is
`completed + pending`, that is `orderCounter + 1000`. -/
theorem daily_summary_text (s : State) (parameters : Params) :
    webhook s "Daily Summary" parameters =
      { state := s
        response :=
          some { fulfillmentText :=
                   "📊 Daily Summary:\nTotal Orders: " ++
                   numberToString (s.orderCounter + 1000) ++
                   "\nCompleted: " ++
                   numberToString (s.orderCounter + 1000 - (s.orders.length : Int)) ++
                   "\nPending: " ++ numberToString (s.orders.length : Int)
                 payload := none } } := by
  have h1 : (1000 : Int) + s.orderCounter - (s.orders.length : Int) + (s.orders.length : Int)
      = s.orderCounter + 1000 := by omega
  have h2 : (1000 : Int) + s.orderCounter - (s.orders.length : Int)
      = s.orderCounter + 1000 - (s.orders.length : Int) := by omega
  simp [webhook, dailySummary, h1, h2]

/-- C8, the code at the failing input. In the initial state (counter 1000, no
open orders, no id ever issued) 'Daily Summary' reports 2000 total orders and
2000 completed orders, not 0 and 0: line 157 adds the seed to the counter
where the claim subtracts it. -/
theorem daily_summary_initial_state_reports_2000 :
    (webhook initialState "Daily Summary" []).response =
      some { fulfillmentText :=
               "📊 Daily Summary:\nTotal Orders: 2000\nCompleted: 2000\nPending: 0"
             payload := none } := by
  rfl

/-! C9 -/

theorem getOwn_setOwn_same (fields : List (String × JSValue)) (key : String) (v : JSValue) :
    getOwn (setOwn fields key v) key = some v := by
  induction fields with
  | nil => simp [setOwn, getOwn]
  | cons kv rest ih =>
    obtain ⟨k, w⟩ := kv
    by_cases hk : k = key
    · simp [setOwn, getOwn, hk]
    · simp [setOwn, getOwn, hk, ih]

/-- A write under any key other than `__proto__` is read back. -/
theorem stockGet_stockSet_same (stock : Stock) (key : String) (v : JSValue)
    (hkey : key ≠ "__proto__") :
    stockGet (stockSet stock key v) key = Looked.value v := by
  have hsetter : reachesProtoSetter stock key = false := by
    simp [reachesProtoSetter, hkey]
  simp [stockSet, hsetter, stockGet, getOwn_setOwn_same]

/-- C9, counterexample. The amount written is not always the amount read
back: after 'Update Stock Level' of rice to `null` (confirmed as "null
units") 'Check Stock Level' reports 0, because `stock[ingredient] || 0`
replaces every falsy stored value; and after 'Update Stock Level' of the
ingredient `__proto__` to 12 (confirmed as "12 units") 'Check Stock Level'
reports "[object Object]", because the write ran the `__proto__` setter and
stored nothing. -/
theorem stock_write_not_always_read_back :
    (webhook
        (step initialState
          ⟨"Update Stock Level",
           [("ingredient_name", JSValue.str "rice"), ("amount", JSValue.null)]⟩)
        "Check Stock Level" [("ingredient_name", JSValue.str "rice")]).response =
      some { fulfillmentText := "📦 Current stock of rice: 0 units.", payload := none } ∧
    (webhook
        (step initialState
          ⟨"Update Stock Level",
           [("ingredient_name", JSValue.str "__proto__"), ("amount", JSValue.num 12)]⟩)
        "Check Stock Level" [("ingredient_name", JSValue.str "__proto__")]).response =
      some { fulfillmentText := "📦 Current stock of __proto__: [object Object] units."
             payload := none } := by
  constructor <;> rfl

/-- C9, amended. For every state and every ingredient whose name is not
`__proto__`, pre-seeded or new, 'Update Stock Level' followed by 'Check Stock
Level' for the same ingredient reports exactly the amount written whenever
that amount is truthy or the number 0 (and converts to text `a`), and reports
0 for every other amount (`null`, `false`, the empty string, an absent
amount). -/
theorem stock_write_visible_to_read (s : State) (update check : Params) (key : String)
    (hupdate : toStr (update.get "ingredient_name") = some key)
    (hcheck : toStr (check.get "ingredient_name") = some key)
    (hkey : key ≠ "__proto__") :
    (∀ a : String,
      truthy (update.get "amount") = true ∨ update.get "amount" = JSValue.num 0 →
      toStr (update.get "amount") = some a →
      (webhook (step s ⟨"Update Stock Level", update⟩) "Check Stock Level" check).response =
        some { fulfillmentText := "📦 Current stock of " ++ key ++ ": " ++ a ++ " units."
               payload := none }) ∧
    (truthy (update.get "amount") = false →
      (webhook (step s ⟨"Update Stock Level", update⟩) "Check Stock Level" check).response =
        some { fulfillmentText := "📦 Current stock of " ++ key ++ ": " ++ "0" ++ " units."
               payload := none }) := by
  have hstep : (step s ⟨"Update Stock Level", update⟩).stock =
      stockSet s.stock key (update.get "amount") := by
    simp [step, webhook, updateStockLevel, hupdate]
  have hzero : toStr (JSValue.num 0) = some "0" := by rfl
  constructor
  · intro a hamount ha
    rcases hamount with htrue | hz
    · simp [webhook, checkStockLevel, hcheck, hstep, stockGet_stockSet_same _ _ _ hkey,
        lookedTruthy, htrue, lookedToStr, ha]
    · rw [hz, hzero] at ha
      cases ha
      simp [webhook, checkStockLevel, hcheck, hstep, stockGet_stockSet_same _ _ _ hkey,
        lookedTruthy, hz, truthy, lookedToStr, hzero]
  · intro hfalse
    simp [webhook, checkStockLevel, hcheck, hstep, stockGet_stockSet_same _ _ _ hkey,
      lookedTruthy, hfalse, lookedToStr, hzero]

/-- C9, witness: rice is set to 12 in the initial state and read back. -/
theorem stock_write_visible_to_read_witness :
    (webhook
        (step initialState
          ⟨"Update Stock Level",
           [("ingredient_name", JSValue.str "rice"), ("amount", JSValue.num 12)]⟩)
        "Check Stock Level" [("ingredient_name", JSValue.str "rice")]).response =
      some { fulfillmentText := "📦 Current stock of rice: 12 units.", payload := none } :=
  (stock_write_visible_to_read initialState
    [("ingredient_name", JSValue.str "rice"), ("amount", JSValue.num 12)]
    [("ingredient_name", JSValue.str "rice")] "rice" rfl rfl (by decide)).1 "12"
    (Or.inl rfl) rfl

/-! C10 -/

/-- C10, the code at the failing input. In the initial state the ingredient
name `constructor` was never set, yet 'Check Stock Level' does not report 0:
`stock["constructor"]` is the function `Object` inherited from
`Object.prototype`, which is truthy, so `|| 0` keeps it and the text reports
its source text. -/
theorem check_stock_of_inherited_name_is_not_zero :
    (webhook initialState "Check Stock Level"
      [("ingredient_name", JSValue.str "constructor")]).response =
      some { fulfillmentText :=
               "📦 Current stock of constructor: function Object() \x7b [native code] \x7d units."
             payload := none } := by
  rfl

/-! C11 -/

/-- C11. The dispatcher is total over intent names: for every intent name
that is not one of the ten handled names, every state and every parameter bag,
the response is the fixed "didn't understand" text with no payload, no error
is raised, and orders, stock and the id counter are unchanged. -/
theorem unknown_intent_falls_back (s : State) (intent : String) (parameters : Params)
    (hunknown : intent ∉ handledIntents) :
    webhook s intent parameters =
      { state := s
        response :=
          some { fulfillmentText := "❓ Sorry, I didn’t understand that request."
                 payload := none } } := by
  simp only [handledIntents, List.mem_cons, List.mem_singleton, not_or, List.mem_nil_iff,
    not_false_eq_true, and_true] at hunknown
  obtain ⟨h1, h2, h3, h4, h5, h6, h7, h8, h9, h10⟩ := hunknown
  simp [webhook, fallback, h1, h2, h3, h4, h5, h6, h7, h8, h9, h10]

/-- C11, witness: the intent name "Place Order" is none of the ten. -/
theorem unknown_intent_falls_back_witness :
    webhook initialState "Place Order" [("table_number", JSValue.str "5")] =
      { state := initialState
        response :=
          some { fulfillmentText := "❓ Sorry, I didn’t understand that request."
                 payload := none } } :=
  unknown_intent_falls_back initialState "Place Order" [("table_number", JSValue.str "5")]
    (by decide)

/-! C12 -/

/-- C12, counterexample. Text that is not a numeral can match an order: with
the open order 1001, the `order_id` text "1001abc" is read by `parseInt` as
1001, so 'Complete Order' answers with the success text and removes the order,
and 'Update Preparation Status' updates it. -/
theorem id_followed_by_letters_matches :
    webhook (run initialState [⟨"Receive Order", []⟩]) "Complete Order"
        [("order_id", JSValue.str "1001abc")] =
      { state := { orders := [], stock := initialState.stock, orderCounter := 1001 }
        response :=
          some { fulfillmentText :=
                   "✅ Order #1001 has been completed and removed from the kitchen queue."
                 payload := none } } ∧
    (webhook (run initialState [⟨"Receive Order", []⟩]) "Update Preparation Status"
        [("order_id", JSValue.str "1001abc"), ("status", JSValue.str "ready")]).response =
      some { fulfillmentText := "🍳 Order #1001 status updated to ready."
             payload :=
               some (Payload.order
                 { order_id := 1001, order_type := JSValue.undefined,
                   table_number := JSValue.str "N/A", items := JSValue.undefined,
                   status := JSValue.str "ready" }) } := by
  constructor <;> rfl

/-- C12, amended. For every state and every `order_id` given as text from
whose start `parseInt` reads no integer (no digit after optional white space
and an optional sign, as in "abc" and ""), 'Update Preparation Status' and
'Complete Order' treat it as matching no order: they answer "Order #NaN not
found." and leave the state unchanged. -/
theorem text_without_leading_numeral_not_found (s : State) (parameters : Params)
    (text : String)
    (hid : parameters.get "order_id" = JSValue.str text)
    (hnan : parseIntChars text.toList = none) :
    webhook s "Update Preparation Status" parameters =
      { state := s
        response :=
          some { fulfillmentText := "⚠️ Order #" ++ "NaN" ++ " not found.", payload := none } } ∧
    webhook s "Complete Order" parameters =
      { state := s
        response :=
          some { fulfillmentText := "⚠️ Order #" ++ "NaN" ++ " not found.", payload := none } } := by
  have hparse : parseInt (parameters.get "order_id") = some none := by
    simp only [parseInt, hid, toStr, hnan]
  have hfind : findOrder s.orders none = none :=
    findOrder_none_of_no_match s.orders none (fun o _ => rfl)
  have hindex : findIndex s.orders none = none :=
    findIndex_none_of_no_match s.orders none (fun o _ => rfl)
  constructor
  · simp [webhook, updatePreparationStatus, hparse, hfind, numberText]
  · simp [webhook, completeOrder, hparse, hindex, numberText]

/-- C12, witness: the text "abc" against the open order 1001. -/
theorem text_without_leading_numeral_not_found_witness :
    webhook (run initialState [⟨"Receive Order", []⟩]) "Update Preparation Status"
        [("order_id", JSValue.str "abc")] =
      { state := run initialState [⟨"Receive Order", []⟩]
        response :=
          some { fulfillmentText := "⚠️ Order #" ++ "NaN" ++ " not found.", payload := none } } ∧
    webhook (run initialState [⟨"Receive Order", []⟩]) "Complete Order"
        [("order_id", JSValue.str "abc")] =
      { state := run initialState [⟨"Receive Order", []⟩]
        response :=
          some { fulfillmentText := "⚠️ Order #" ++ "NaN" ++ " not found.", payload := none } } :=
  text_without_leading_numeral_not_found (run initialState [⟨"Receive Order", []⟩])
    [("order_id", JSValue.str "abc")] "abc" rfl (by decide)

/-! C13 -/

theorem orderLines_of_renderable (orders : List Order)
    (h : ∀ o ∈ orders, (toStr o.table_number).isSome = true ∧ (toStr o.items).isSome = true ∧
      (toStr o.status).isSome = true) :
    ∃ lines : List String, orderLines orders = some lines ∧ List.Forall₂ IsLineOf orders lines := by
  induction orders with
  | nil => exact ⟨[], rfl, List.Forall₂.nil⟩
  | cons o rest ih =>
    obtain ⟨lines, hlines, hall⟩ := ih (fun x hx => h x (List.mem_cons_of_mem _ hx))
    obtain ⟨ht, hi, hst⟩ := h o (List.mem_cons_self _ _)
    obtain ⟨t, ht⟩ := Option.isSome_iff_exists.mp ht
    obtain ⟨i, hi⟩ := Option.isSome_iff_exists.mp hi
    obtain ⟨st, hst⟩ := Option.isSome_iff_exists.mp hst
    refine ⟨_ :: lines, ?_, List.Forall₂.cons ⟨t, i, st, ht, hi, hst, rfl⟩ hall⟩
    simp [orderLines, orderLine, ht, hi, hst, hlines]

/-- C13, counterexample. 'Show Current Orders' does not always produce a
listing: after a 'Receive Order' whose `food_items` is an object with an own
key `toString` (the order is queued although its own response failed), the
listing raises a `TypeError` and no text is produced. -/
theorem show_orders_fails_on_unrenderable_order :
    (run initialState
      [⟨"Receive Order",
        [("food_items", JSValue.obj [("toString", JSValue.num 1)])]⟩]).orders.length = 1 ∧
    (webhook
      (run initialState
        [⟨"Receive Order", [("food_items", JSValue.obj [("toString", JSValue.num 1)])]⟩])
      "Show Current Orders" []).response = none := by
  constructor <;> rfl

/-- C13, amended. 'Show Current Orders' never changes the state and, for every
state: if there are no open orders the text is the fixed "no current orders"
message with no listing; otherwise, whenever the table number, items and
status of every open order convert to text, the text is a header followed by
exactly one line per open order, in insertion order, each line being
`#id (Table t): items [status]` built from that order's fields, the lines
joined by newlines. -/
theorem show_orders_lists_in_insertion_order (s : State) (parameters : Params) :
    (webhook s "Show Current Orders" parameters).state = s ∧
    (s.orders = [] →
      (webhook s "Show Current Orders" parameters).response =
        some { fulfillmentText := "📭 No current orders in the queue.", payload := none }) ∧
    (s.orders ≠ [] →
      (∀ o ∈ s.orders, (toStr o.table_number).isSome = true ∧ (toStr o.items).isSome = true ∧
        (toStr o.status).isSome = true) →
      ∃ lines : List String,
        List.Forall₂ IsLineOf s.orders lines ∧
        (webhook s "Show Current Orders" parameters).response =
          some { fulfillmentText := "📋 Current Orders:\n" ++ "\n".intercalate lines
                 payload := none }) := by
  refine ⟨by simp [webhook, showCurrentOrders_state], ?_, ?_⟩
  · intro hempty
    simp [webhook, showCurrentOrders, hempty]
  · intro hne hrender
    obtain ⟨lines, hlines, hall⟩ := orderLines_of_renderable s.orders hrender
    refine ⟨lines, hall, ?_⟩
    have hlen : ¬ s.orders.length = 0 := by
      intro h0
      exact hne (List.length_eq_zero.mp h0)
    simp [webhook, showCurrentOrders, hlen, hlines]

/-- C13, witness: two orders placed from the initial state are listed in the
order of their placement. -/
theorem show_orders_lists_in_insertion_order_witness :
    ∃ lines : List String,
      List.Forall₂ IsLineOf
        (run initialState
          [⟨"Receive Order", [("food_items", JSValue.str "rice")]⟩,
           ⟨"Receive Order", [("table_number", JSValue.num 5)]⟩]).orders lines ∧
      (webhook
        (run initialState
          [⟨"Receive Order", [("food_items", JSValue.str "rice")]⟩,
           ⟨"Receive Order", [("table_number", JSValue.num 5)]⟩])
        "Show Current Orders" []).response =
        some { fulfillmentText := "📋 Current Orders:\n" ++ "\n".intercalate lines
               payload := none } :=
  (show_orders_lists_in_insertion_order
    (run initialState
      [⟨"Receive Order", [("food_items", JSValue.str "rice")]⟩,
       ⟨"Receive Order", [("table_number", JSValue.num 5)]⟩]) []).2.2
    (by
      intro h
      have hlen := congrArg List.length h
      revert hlen
      decide)
    (by
      intro o ho
      simp [run, step, webhook, receiveOrder, initialState] at ho
      rcases ho with ho | ho <;> subst ho <;> decide)

/-! C14 -/

/-- C14, counterexample. With the parameter names of the claim (`orderType`,
`items`) the handler, which reads `order_type` and `food_items`, finds neither:
the payload has id 1001, table number "5" and status "new", but its order type
and items are `undefined`, and the text says so. -/
theorem place_order_with_unread_parameter_names :
    webhook initialState "Receive Order"
        [("orderType", JSValue.str "dine-in"), ("table_number", JSValue.str "5"),
         ("items", JSValue.str "rice, chicken")] =
      { state :=
          { orders :=
              [{ order_id := 1001, order_type := JSValue.undefined,
                 table_number := JSValue.str "5", items := JSValue.undefined,
                 status := JSValue.str "new" }]
            stock := initialState.stock, orderCounter := 1001 }
        response :=
          some { fulfillmentText :=
                   "✅ Order #1001 received: undefined, items: undefined, table: 5. Added to kitchen queue."
                 payload :=
                   some (Payload.order
                     { order_id := 1001, order_type := JSValue.undefined,
                       table_number := JSValue.str "5", items := JSValue.undefined,
                       status := JSValue.str "new" }) } } := by
  rfl

/-- C14, amended. From the initial state, 'Receive Order' with parameters
`order_type` "dine-in", `table_number` "5" and `food_items` "rice, chicken"
yields a payload whose order id is seed + 1 = 1001, whose order type is
"dine-in", whose table number is "5", whose items are "rice, chicken" and
whose status is "new", together with a text containing 1001. -/
theorem place_order_scenario :
    (webhook initialState "Receive Order"
        [("order_type", JSValue.str "dine-in"), ("table_number", JSValue.str "5"),
         ("food_items", JSValue.str "rice, chicken")]).response =
      some { fulfillmentText :=
               "✅ Order #1001 received: dine-in, items: rice, chicken, table: 5. Added to kitchen queue."
             payload :=
               some (Payload.order
                 { order_id := 1001, order_type := JSValue.str "dine-in",
                   table_number := JSValue.str "5", items := JSValue.str "rice, chicken",
                   status := JSValue.str "new" }) } := by
  rfl

/-! Frame lemmas for `stock` -/

/-- Every branch other than 'Update Stock Level' leaves `stock` alone. -/
theorem webhook_stock_of_other_intent (s : State) (intent : String) (p : Params)
    (h : intent ≠ "Update Stock Level") : (webhook s intent p).state.stock = s.stock := by
  unfold webhook
  split_ifs
  · rfl
  · exact (updatePreparationStatus_frame s p).2
  · rfl
  · rfl
  · rw [showCurrentOrders_state]
  · exact (completeOrder_frame s p).2
  · rw [checkStockLevel_state]
  · rfl
  · rfl
  · rfl

theorem getOwn_setOwn_other (fields : List (String × JSValue)) (key other : String)
    (v : JSValue) (hne : other ≠ key) :
    getOwn (setOwn fields key v) other = getOwn fields other := by
  induction fields with
  | nil =>
    have hne2 : ¬ key = other := fun h => hne h.symm
    simp [setOwn, getOwn, hne2]
  | cons kv rest ih =>
    obtain ⟨k, w⟩ := kv
    by_cases hk : k = key
    · subst hk
      have hko : ¬ k = other := fun h => hne h.symm
      simp [setOwn, getOwn, hko]
    · by_cases hko : k = other
      · subst hko
        simp [setOwn, getOwn, hk]
      · simp [setOwn, getOwn, hk, hko, ih]

/-- A write under a key other than `__proto__` leaves every other property
read as it was. -/
theorem stockGet_stockSet_other (stock : Stock) (key other : String) (v : JSValue)
    (hkey : key ≠ "__proto__") (hne : other ≠ key) :
    stockGet (stockSet stock key v) other = stockGet stock other := by
  have hsetter : reachesProtoSetter stock key = false := by
    simp [reachesProtoSetter, hkey]
  simp [stockSet, hsetter, stockGet, getOwn_setOwn_other _ _ _ _ hne]

theorem setOwn_values (fields : List (String × JSValue)) (key : String) (v : JSValue)
    (P : JSValue → Prop) (hfields : ∀ kv ∈ fields, P kv.2) (hv : P v) :
    ∀ kv ∈ setOwn fields key v, P kv.2 := by
  induction fields with
  | nil =>
    intro kv hkv
    simp [setOwn] at hkv
    subst hkv
    exact hv
  | cons kw rest ih =>
    obtain ⟨k, w⟩ := kw
    intro kv hkv
    by_cases hk : k = key
    · simp [setOwn, hk] at hkv
      rcases hkv with h | h
      · subst h
        exact hv
      · exact hfields kv (List.mem_cons_of_mem _ h)
    · simp [setOwn, hk] at hkv
      rcases hkv with h | h
      · subst h
        exact hfields (k, w) (List.mem_cons_self _ _)
      · exact ih (fun x hx => hfields x (List.mem_cons_of_mem _ hx)) kv h

/-! C15 -/

/-- C15, the code at the failing input. In the initial state 'Check Stock
Level' reports 0 for flour.  After 'Update Stock Level' with the ingredient
name `__proto__` and the amount `{"flour": 7}`, which names no flour entry, it
reports 7: the write ran the `__proto__` setter inherited by the object
`stock` and installed the amount as its prototype. -/
theorem proto_write_changes_entries_it_does_not_name :
    (webhook initialState "Check Stock Level"
        [("ingredient_name", JSValue.str "flour")]).response =
      some { fulfillmentText := "📦 Current stock of flour: 0 units.", payload := none } ∧
    (webhook
        (step initialState
          ⟨"Update Stock Level",
           [("ingredient_name", JSValue.str "__proto__"),
            ("amount", JSValue.obj [("flour", JSValue.num 7)])]⟩)
        "Check Stock Level" [("ingredient_name", JSValue.str "flour")]).response =
      some { fulfillmentText := "📦 Current stock of flour: 7 units.", payload := none } := by
  constructor <;> rfl

/-! C16 -/

/-- C16, counterexample. A reachable state can hold a negative quantity:
after 'Update Stock Level' of rice to -5 from the initial state, the stored
value is -5 and 'Check Stock Level' reports it. -/
theorem negative_stock_is_reachable :
    getOwn
        (run initialState
          [⟨"Update Stock Level",
            [("ingredient_name", JSValue.str "rice"), ("amount", JSValue.num (-5))]⟩]).stock.own
        "rice" = some (JSValue.num (-5)) ∧
    (webhook
        (run initialState
          [⟨"Update Stock Level",
            [("ingredient_name", JSValue.str "rice"), ("amount", JSValue.num (-5))]⟩])
        "Check Stock Level" [("ingredient_name", JSValue.str "rice")]).response =
      some { fulfillmentText := "📦 Current stock of rice: -5 units.", payload := none } := by
  constructor <;> rfl

theorem step_stock_nonNegative (s : State) (e : Event)
    (hamount : e.intent = "Update Stock Level" →
      isNonNegativeNumber (e.parameters.get "amount") = true)
    (hs : ∀ kv ∈ s.stock.own, isNonNegativeNumber kv.2 = true) :
    ∀ kv ∈ (step s e).stock.own, isNonNegativeNumber kv.2 = true := by
  by_cases hi : e.intent = "Update Stock Level"
  · have hv := hamount hi
    have hstep : step s e = (updateStockLevel s e.parameters).state := by
      simp [step, webhook, hi]
    rw [hstep]
    cases hk : toStr (e.parameters.get "ingredient_name") with
    | none => simpa [updateStockLevel, hk] using hs
    | some key =>
      cases hval : e.parameters.get "amount" with
      | num n =>
        rw [hval] at hv
        by_cases hsetter : reachesProtoSetter s.stock key = true
        · simpa [updateStockLevel, hk, hval, stockSet, hsetter] using hs
        · have hown := setOwn_values s.stock.own key (JSValue.num n)
            (fun v => isNonNegativeNumber v = true) hs hv
          simpa [updateStockLevel, hk, hval, stockSet, hsetter] using hown
      | undefined => rw [hval] at hv; cases hv
      | null => rw [hval] at hv; cases hv
      | bool b => rw [hval] at hv; cases hv
      | str t => rw [hval] at hv; cases hv
      | arr items => rw [hval] at hv; cases hv
      | obj fields => rw [hval] at hv; cases hv
  · have hstock : (step s e).stock = s.stock := webhook_stock_of_other_intent s _ _ hi
    rw [hstock]
    exact hs

theorem run_stock_nonNegative (events : List Event) :
    ∀ s : State,
      (∀ e ∈ events, e.intent = "Update Stock Level" →
        isNonNegativeNumber (e.parameters.get "amount") = true) →
      (∀ kv ∈ s.stock.own, isNonNegativeNumber kv.2 = true) →
      ∀ kv ∈ (run s events).stock.own, isNonNegativeNumber kv.2 = true := by
  induction events with
  | nil => intro s _ hs; exact hs
  | cons e rest ih =>
    intro s hevents hs
    unfold run
    exact ih (step s e) (fun x hx => hevents x (List.mem_cons_of_mem _ hx))
      (step_stock_nonNegative s e (hevents e (List.mem_cons_self _ _)) hs)

/-- C16, amended. In every state reachable from the initial state by a
sequence of webhook requests in which every 'Update Stock Level' carries a
non-negative number as its amount, every quantity stored in the stock mapping
is a non-negative number.  (The handler stores whatever amount it is given.) -/
theorem stock_nonnegative_when_amounts_are (events : List Event)
    (hamounts : ∀ e ∈ events, e.intent = "Update Stock Level" →
      isNonNegativeNumber (e.parameters.get "amount") = true) :
    ∀ kv ∈ (run initialState events).stock.own, isNonNegativeNumber kv.2 = true :=
  run_stock_nonNegative events initialState hamounts (by decide)

/-- C16, witness: an order is placed, rice is set to 12 and the queue is
cleared. -/
theorem stock_nonnegative_when_amounts_are_witness :
    getOwn
        (run initialState
          [⟨"Receive Order", []⟩,
           ⟨"Update Stock Level",
            [("ingredient_name", JSValue.str "rice"), ("amount", JSValue.num 12)]⟩,
           ⟨"Clear Queue", []⟩]).stock.own "rice" = some (JSValue.num 12) ∧
    isNonNegativeNumber (JSValue.num 12) = true :=
  ⟨rfl,
   stock_nonnegative_when_amounts_are
    [⟨"Receive Order", []⟩,
     ⟨"Update Stock Level",
      [("ingredient_name", JSValue.str "rice"), ("amount", JSValue.num 12)]⟩,
     ⟨"Clear Queue", []⟩]
    (by decide) ("rice", JSValue.num 12) (List.Mem.head _)⟩

/-! C17 -/

/-- C17, counterexample. A supplied value is not always kept: 'Notify
Waitstaff' with `table_number` 0 and `order_id` 0 answers with table number
"N/A" and order id "Unknown", and 'Receive Order' with the empty string as
`table_number` answers with table number "N/A". -/
theorem supplied_falsy_values_are_defaulted :
    (webhook initialState "Notify Waitstaff"
        [("table_number", JSValue.num 0), ("order_id", JSValue.num 0)]).response =
      some { fulfillmentText :=
               "📢 Waitstaff notified: Order #Unknown (Table N/A) is ready to serve."
             payload := some (Payload.notify (JSValue.str "Unknown") (JSValue.str "N/A") true) } ∧
    (webhook initialState "Receive Order" [("table_number", JSValue.str "")]).response =
      some { fulfillmentText :=
               "✅ Order #1001 received: undefined, items: undefined, table: N/A. Added to kitchen queue."
             payload :=
               some (Payload.order
                 { order_id := 1001, order_type := JSValue.undefined,
                   table_number := JSValue.str "N/A", items := JSValue.undefined,
                   status := JSValue.str "new" }) } := by
  constructor <;> rfl

/-- C17, amended. Missing and falsy parameters are defaulted and truthy ones
are kept: in every response of 'Receive Order' and of 'Notify Waitstaff' the
table number of the payload is "N/A" when `table_number` is absent or falsy
(`null`, `false`, 0, the empty string) and is the supplied value, unchanged,
for every truthy `table_number`; in every response of 'Notify Waitstaff' the
order id of the payload is "Unknown" when `order_id` is absent or falsy and is
the supplied value, unchanged, for every truthy `order_id`. -/
theorem falsy_parameters_are_defaulted (s : State) (parameters : Params) (r : Response) :
    ((webhook s "Receive Order" parameters).response = some r →
      ∃ o : Order, r.payload = some (Payload.order o) ∧
        (parameters.get "table_number" = JSValue.undefined →
          o.table_number = JSValue.str "N/A") ∧
        (truthy (parameters.get "table_number") = false →
          o.table_number = JSValue.str "N/A") ∧
        (truthy (parameters.get "table_number") = true →
          o.table_number = parameters.get "table_number")) ∧
    ((webhook s "Notify Waitstaff" parameters).response = some r →
      ∃ orderId tableNum : JSValue, r.payload = some (Payload.notify orderId tableNum true) ∧
        (parameters.get "table_number" = JSValue.undefined → tableNum = JSValue.str "N/A") ∧
        (truthy (parameters.get "table_number") = false → tableNum = JSValue.str "N/A") ∧
        (truthy (parameters.get "table_number") = true →
          tableNum = parameters.get "table_number") ∧
        (parameters.get "order_id" = JSValue.undefined → orderId = JSValue.str "Unknown") ∧
        (truthy (parameters.get "order_id") = false → orderId = JSValue.str "Unknown") ∧
        (truthy (parameters.get "order_id") = true → orderId = parameters.get "order_id")) := by
  have hdefault : ∀ (v d : JSValue),
      (v = JSValue.undefined → jsOr v d = d) ∧ (truthy v = false → jsOr v d = d) ∧
      (truthy v = true → jsOr v d = v) := by
    intro v d
    refine ⟨?_, ?_, ?_⟩
    · intro hv; subst hv; rfl
    · intro hv; simp [jsOr, hv]
    · intro hv; simp [jsOr, hv]
  constructor
  · intro hr
    have hweb : webhook s "Receive Order" parameters = receiveOrder s parameters := by
      simp [webhook]
    rw [hweb] at hr
    unfold receiveOrder at hr
    simp only at hr
    split at hr
    · cases hr
      exact ⟨_, rfl, hdefault _ _⟩
    · cases hr
  · intro hr
    have hweb : webhook s "Notify Waitstaff" parameters = notifyWaitstaff s parameters := by
      simp [webhook]
    rw [hweb] at hr
    unfold notifyWaitstaff at hr
    simp only at hr
    split at hr
    · cases hr
      obtain ⟨h1, h2, h3⟩ := hdefault (parameters.get "table_number") (JSValue.str "N/A")
      obtain ⟨h4, h5, h6⟩ := hdefault (parameters.get "order_id") (JSValue.str "Unknown")
      exact ⟨_, _, rfl, h1, h2, h3, h4, h5, h6⟩
    · cases hr

/-- C17, witness: 'Notify Waitstaff' with table number "5" and no order id. -/
theorem falsy_parameters_are_defaulted_witness :
    ∃ orderId tableNum : JSValue,
      (Payload.notify (JSValue.str "Unknown") (JSValue.str "5") true) =
        Payload.notify orderId tableNum true ∧
      tableNum = JSValue.str "5" ∧ orderId = JSValue.str "Unknown" := by
  obtain ⟨orderId, tableNum, hpayload, _, _, htable, hid, _, _⟩ :=
    (falsy_parameters_are_defaulted initialState [("table_number", JSValue.str "5")]
      { fulfillmentText := "📢 Waitstaff notified: Order #Unknown (Table 5) is ready to serve."
        payload := some (Payload.notify (JSValue.str "Unknown") (JSValue.str "5") true) }).2 rfl
  exact ⟨orderId, tableNum, Option.some.inj hpayload, htable rfl, hid rfl⟩

/-! C18 -/

/-- C18, counterexample. 'Notify Waitstaff' does not answer "ready to serve"
for every order id that matches no open order, nor 'Stock Low Alert' "low" for
every ingredient: with `order_id`, respectively `ingredient_name`, an object
that has an own key `toString`, the template literal raises a `TypeError` and
no response is produced. -/
theorem notify_and_stock_alert_raise_on_unrenderable_value :
    webhook initialState "Notify Waitstaff"
        [("order_id", JSValue.obj [("toString", JSValue.num 1)])] =
      { state := initialState, response := none } ∧
    webhook initialState "Stock Low Alert"
        [("ingredient_name", JSValue.obj [("toString", JSValue.num 1)])] =
      { state := initialState, response := none } := by
  constructor <;> rfl

/-- C18, amended. 'Notify Waitstaff' and 'Stock Low Alert' are pure
formatting: for every parameter bag and every two states, the response
computed in one state equals the response computed in the other, and the
state is left unchanged.  In particular, whenever the values they echo convert
to text (with every number in them of magnitude below `2 ^ 53`), 'Notify
Waitstaff' answers "ready to serve" with notify = true whatever orders are
open, and 'Stock Low Alert' answers stock_status "low" whatever quantity is
stored; whenever an echoed value does not convert to text, no response is
produced. -/
theorem notify_and_stock_alert_ignore_state (s1 s2 : State) (parameters : Params) :
    (webhook s1 "Notify Waitstaff" parameters).response =
      (webhook s2 "Notify Waitstaff" parameters).response ∧
    (webhook s1 "Notify Waitstaff" parameters).state = s1 ∧
    (webhook s1 "Stock Low Alert" parameters).response =
      (webhook s2 "Stock Low Alert" parameters).response ∧
    (webhook s1 "Stock Low Alert" parameters).state = s1 ∧
    (∀ o t : String,
      rendersExactly (jsOr (parameters.get "order_id") (JSValue.str "Unknown")) = true →
      rendersExactly (jsOr (parameters.get "table_number") (JSValue.str "N/A")) = true →
      toStr (jsOr (parameters.get "order_id") (JSValue.str "Unknown")) = some o →
      toStr (jsOr (parameters.get "table_number") (JSValue.str "N/A")) = some t →
      (webhook s1 "Notify Waitstaff" parameters).response =
        some { fulfillmentText :=
                 "📢 Waitstaff notified: Order #" ++ o ++ " (Table " ++ t ++
                 ") is ready to serve."
               payload :=
                 some (Payload.notify
                   (jsOr (parameters.get "order_id") (JSValue.str "Unknown"))
                   (jsOr (parameters.get "table_number") (JSValue.str "N/A")) true) }) ∧
    (∀ i : String,
      rendersExactly (parameters.get "ingredient_name") = true →
      toStr (parameters.get "ingredient_name") = some i →
      (webhook s1 "Stock Low Alert" parameters).response =
        some { fulfillmentText :=
                 "⚠️ Stock Alert: " ++ i ++ " is running low. Admin notified."
               payload := some (Payload.stockAlert (parameters.get "ingredient_name") "low") }) ∧
    (toStr (jsOr (parameters.get "order_id") (JSValue.str "Unknown")) = none ∨
      toStr (jsOr (parameters.get "table_number") (JSValue.str "N/A")) = none →
      (webhook s1 "Notify Waitstaff" parameters).response = none) ∧
    (toStr (parameters.get "ingredient_name") = none →
      (webhook s1 "Stock Low Alert" parameters).response = none) := by
  refine ⟨by simp [webhook, notifyWaitstaff], by simp [webhook, notifyWaitstaff],
    by simp [webhook, stockLowAlert], by simp [webhook, stockLowAlert], ?_, ?_, ?_, ?_⟩
  · intro o t _ _ ho ht
    simp [webhook, notifyWaitstaff, ho, ht]
  · intro i _ hi
    simp [webhook, stockLowAlert, hi]
  · intro hraise
    have hweb : webhook s1 "Notify Waitstaff" parameters = notifyWaitstaff s1 parameters := by
      simp [webhook]
    rw [hweb]
    unfold notifyWaitstaff
    simp only
    split
    · rename_i o t ho ht
      rcases hraise with h | h
      · rw [h] at ho; cases ho
      · rw [h] at ht; cases ht
    · rfl
  · intro hraise
    simp [webhook, stockLowAlert, hraise]

/-- C18, witness: in the state with the one open order 1001 and 50 units of
rice, order 9999 is announced as ready and rice is reported low. -/
theorem notify_and_stock_alert_ignore_state_witness :
    (webhook (run initialState [⟨"Receive Order", []⟩]) "Notify Waitstaff"
        [("order_id", JSValue.num 9999), ("ingredient_name", JSValue.str "rice")]).response =
      some { fulfillmentText :=
               "📢 Waitstaff notified: Order #" ++ "9999" ++ " (Table " ++ "N/A" ++
               ") is ready to serve."
             payload :=
               some (Payload.notify (JSValue.num 9999) (JSValue.str "N/A") true) } ∧
    (webhook (run initialState [⟨"Receive Order", []⟩]) "Stock Low Alert"
        [("order_id", JSValue.num 9999), ("ingredient_name", JSValue.str "rice")]).response =
      some { fulfillmentText :=
               "⚠️ Stock Alert: " ++ "rice" ++ " is running low. Admin notified."
             payload := some (Payload.stockAlert (JSValue.str "rice") "low") } :=
  ⟨(notify_and_stock_alert_ignore_state (run initialState [⟨"Receive Order", []⟩])
      initialState
      [("order_id", JSValue.num 9999), ("ingredient_name", JSValue.str "rice")]).2.2.2.2.1
      "9999" "N/A" (by decide) (by decide) rfl rfl,
   (notify_and_stock_alert_ignore_state (run initialState [⟨"Receive Order", []⟩])
      initialState
      [("order_id", JSValue.num 9999), ("ingredient_name", JSValue.str "rice")]).2.2.2.2.2.1
      "rice" (by decide) rfl⟩

/-! The invariant of `orders` -/

theorem assignStatus_ids (orders : List Order) (k : Option Int) (status : JSValue) :
    (assignStatus orders k status).map (fun o => o.order_id) =
      orders.map (fun o => o.order_id) := by
  induction orders with
  | nil => rfl
  | cons o rest ih =>
    by_cases hm : idMatches k o = true
    · simp [assignStatus, hm]
    · simp [assignStatus, hm, ih]

theorem splice_sublist (orders : List Order) :
    ∀ index : Nat, (splice orders index).Sublist orders := by
  induction orders with
  | nil => intro index; simp [splice]
  | cons o rest ih =>
    intro index
    cases index with
    | zero => simp [splice]
    | succ i => simpa [splice] using ih i

theorem ordersInvariant_of_ids (s t : State)
    (hids : t.orders.map (fun o => o.order_id) = s.orders.map (fun o => o.order_id))
    (hcounter : t.orderCounter = s.orderCounter) (h : OrdersInvariant s) :
    OrdersInvariant t := by
  obtain ⟨hpair, hrange, hseed⟩ := h
  refine ⟨by rw [hids]; exact hpair, ?_, by rw [hcounter]; exact hseed⟩
  intro o ho
  have hmem : o.order_id ∈ t.orders.map (fun o => o.order_id) := List.mem_map_of_mem _ ho
  rw [hids] at hmem
  obtain ⟨x, hx, hxo⟩ := List.mem_map.mp hmem
  have := hrange x hx
  rw [hcounter]
  omega

theorem ordersInvariant_of_sublist (s t : State) (hsub : t.orders.Sublist s.orders)
    (hcounter : t.orderCounter = s.orderCounter) (h : OrdersInvariant s) :
    OrdersInvariant t := by
  obtain ⟨hpair, hrange, hseed⟩ := h
  refine ⟨hpair.sublist (hsub.map _), ?_, by rw [hcounter]; exact hseed⟩
  intro o ho
  rw [hcounter]
  exact hrange o (hsub.subset ho)

theorem receiveOrder_invariant (s : State) (p : Params) (h : OrdersInvariant s) :
    OrdersInvariant (receiveOrder s p).state := by
  obtain ⟨hpair, hrange, hseed⟩ := h
  refine ⟨?_, ?_, ?_⟩
  · simp only [receiveOrder, List.map_append, List.map_cons, List.map_nil]
    rw [List.pairwise_append]
    refine ⟨hpair, List.pairwise_singleton _ _, ?_⟩
    intro a ha b hb
    obtain ⟨x, hx, hxa⟩ := List.mem_map.mp ha
    have := hrange x hx
    simp only [List.mem_singleton] at hb
    omega
  · intro o ho
    simp only [receiveOrder, List.mem_append, List.mem_singleton] at ho ⊢
    rcases ho with ho | ho
    · have := hrange o ho
      omega
    · subst ho
      simp only
      omega
  · simp only [receiveOrder]
    omega

/-- Every branch of the handler preserves the invariant of `orders`. -/
theorem webhook_invariant (s : State) (intent : String) (p : Params)
    (h : OrdersInvariant s) : OrdersInvariant (webhook s intent p).state := by
  unfold webhook
  split_ifs
  · exact receiveOrder_invariant s p h
  · refine ordersInvariant_of_ids s _ ?_ (updatePreparationStatus_frame s p).1 h
    unfold updatePreparationStatus
    split
    · rfl
    · split
      · exact assignStatus_ids _ _ _
      · rfl
  · exact h
  · exact h
  · rw [showCurrentOrders_state]; exact h
  · refine ordersInvariant_of_sublist s _ ?_ (completeOrder_frame s p).1 h
    unfold completeOrder
    split
    · exact List.Sublist.refl _
    · split
      · exact splice_sublist _ _
      · exact List.Sublist.refl _
  · refine ordersInvariant_of_ids s _ ?_ (updateStockLevel_frame s p).1 h
    rw [(updateStockLevel_frame s p).2]
  · rw [checkStockLevel_state]; exact h
  · exact h
  · refine ⟨List.Pairwise.nil, ?_, h.2.2⟩
    intro o ho
    cases ho
  · exact h

theorem run_invariant (events : List Event) :
    ∀ s : State, OrdersInvariant s → OrdersInvariant (run s events) := by
  induction events with
  | nil => intro s h; exact h
  | cons e rest ih =>
    intro s h
    unfold run
    exact ih (step s e) (webhook_invariant s e.intent e.parameters h)

theorem initialState_invariant : OrdersInvariant initialState := by
  refine ⟨List.Pairwise.nil, ?_, by decide⟩
  intro o ho
  cases ho

/-- In a list whose ids increase strictly, at most one element matches an
id. -/
theorem matches_at_most_one (orders : List Order) (k : Option Int)
    (hpair : (orders.map (fun o => o.order_id)).Pairwise (fun a b => a < b)) :
    (orders.filter (idMatches k)).length ≤ 1 := by
  induction orders with
  | nil => simp
  | cons o rest ih =>
    rw [List.map_cons, List.pairwise_cons] at hpair
    obtain ⟨hhead, htail⟩ := hpair
    by_cases hm : idMatches k o = true
    · have hrest : rest.filter (idMatches k) = [] := by
        rw [List.filter_eq_nil_iff]
        intro x hx hxm
        have hlt := hhead x.order_id (List.mem_map_of_mem _ hx)
        cases k with
        | none => simp [idMatches] at hm
        | some n =>
          simp only [idMatches, decide_eq_true_eq] at hm hxm
          omega
      simp [List.filter, hm, hrest]
    · have hm2 : idMatches k o = false := by simpa using hm
      simpa [List.filter, hm2] using ih htail

/-! C19 -/

/-- C19. In every state reachable from the initial state by any sequence of
webhook requests, the ids of the open orders are strictly increasing along the
sequence (hence pairwise distinct), and each lies in the range
1001..orderCounter; so a lookup by id matches at most one open order. -/
theorem open_order_ids_increase (events : List Event) :
    ((run initialState events).orders.map (fun o => o.order_id)).Pairwise
      (fun a b => a < b) ∧
    ((run initialState events).orders.map (fun o => o.order_id)).Nodup ∧
    (∀ o ∈ (run initialState events).orders,
      1001 ≤ o.order_id ∧ o.order_id ≤ (run initialState events).orderCounter) ∧
    ∀ orderId : Option Int,
      ((run initialState events).orders.filter (idMatches orderId)).length ≤ 1 := by
  obtain ⟨hpair, hrange, _⟩ := run_invariant events initialState initialState_invariant
  refine ⟨hpair, ?_, hrange, fun orderId => matches_at_most_one _ orderId hpair⟩
  exact hpair.imp (fun hab => ne_of_lt hab)

/-! `parseInt` reads back the numeral of a natural number -/

theorem digitValue_digitChar (d : Nat) (h : d < 10) :
    digitValue 10 (Nat.digitChar d) = some d := by
  interval_cases d <;> rfl

theorem readDigits_toDigitsCore (fuel : Nat) :
    ∀ (n : Nat) (ds : List Char), n < fuel →
      ∃ k : Nat, 0 < k ∧ ∀ acc cnt : Nat,
        readDigits 10 acc cnt (Nat.toDigitsCore 10 fuel n ds) =
          readDigits 10 (acc * 10 ^ k + n) (cnt + k) ds := by
  induction fuel with
  | zero => intro n ds h; omega
  | succ fuel ih =>
    intro n ds hn
    have hd : digitValue 10 (Nat.digitChar (n % 10)) = some (n % 10) :=
      digitValue_digitChar _ (Nat.mod_lt _ (by decide))
    by_cases hq : n / 10 = 0
    · refine ⟨1, by decide, ?_⟩
      intro acc cnt
      have hsmall : n % 10 = n := Nat.mod_eq_of_lt (by omega)
      simp only [Nat.toDigitsCore, hq, if_true, readDigits, hd, pow_one]
      rw [hsmall]
    · have hlt : n / 10 < fuel := by omega
      obtain ⟨k, hk, hread⟩ := ih (n / 10) (Nat.digitChar (n % 10) :: ds) hlt
      refine ⟨k + 1, by omega, ?_⟩
      intro acc cnt
      simp only [Nat.toDigitsCore, hq, if_false]
      rw [hread acc cnt]
      simp only [readDigits, hd]
      have hval : (acc * 10 ^ k + n / 10) * 10 + n % 10 = acc * 10 ^ (k + 1) + n := by
        have := Nat.div_add_mod n 10
        rw [pow_succ]
        nlinarith
      rw [hval, Nat.add_assoc]

theorem startsWithDigits_cons (d : Nat) (hd : d < 10) (ds : List Char)
    (h : ds = [] ∨ StartsWithDigits ds) : StartsWithDigits (Nat.digitChar d :: ds) := by
  rcases h with h | ⟨e, more, he, hds, _⟩
  · exact ⟨d, ds, hd, rfl, Or.inl h⟩
  · exact ⟨d, ds, hd, rfl, Or.inr ⟨e, more, he, hds⟩⟩

theorem startsWithDigits_toDigitsCore (fuel : Nat) :
    ∀ (n : Nat) (ds : List Char), StartsWithDigits ds →
      StartsWithDigits (Nat.toDigitsCore 10 fuel n ds) := by
  induction fuel with
  | zero => intro n ds h; simpa [Nat.toDigitsCore] using h
  | succ fuel ih =>
    intro n ds h
    have hcons := startsWithDigits_cons (n % 10) (Nat.mod_lt _ (by decide)) ds (Or.inr h)
    by_cases hq : n / 10 = 0
    · simpa [Nat.toDigitsCore, hq] using hcons
    · simpa [Nat.toDigitsCore, hq] using ih (n / 10) _ hcons

theorem startsWithDigits_toDigits (n : Nat) : StartsWithDigits (Nat.toDigits 10 n) := by
  have hcons := startsWithDigits_cons (n % 10) (Nat.mod_lt _ (by decide)) [] (Or.inl rfl)
  by_cases hq : n / 10 = 0
  · simpa [Nat.toDigits, Nat.toDigitsCore, hq] using hcons
  · simpa [Nat.toDigits, Nat.toDigitsCore, hq] using
      startsWithDigits_toDigitsCore n (n / 10) _ hcons

theorem parseIntChars_of_startsWithDigits (cs : List Char) (n k : Nat) (hk : 0 < k)
    (hshape : StartsWithDigits cs) (hread : readDigits 10 0 0 cs = (n, k)) :
    parseIntChars cs = some (n : Int) := by
  obtain ⟨d, rest, hd, hcs, hrest⟩ := hshape
  subst hcs
  have hk0 : ¬ k = 0 := by omega
  rcases hrest with hnil | ⟨e, more, he, hmore⟩
  · subst hnil
    interval_cases d <;>
      simp [parseIntChars, Nat.digitChar, List.dropWhile, isStrWhiteSpace] at hread ⊢ <;>
      simp [hread, hk0]
  · subst hmore
    interval_cases d <;> interval_cases e <;>
      simp [parseIntChars, Nat.digitChar, List.dropWhile, isStrWhiteSpace] at hread ⊢ <;>
      simp [hread, hk0]

/-- The call `parseInt(n)` on a number that is a natural number returns it. -/
theorem parseInt_num_of_nat (n : Nat) : parseInt (JSValue.num (n : Int)) = some (some (n : Int)) := by
  obtain ⟨k, hk, hread⟩ := readDigits_toDigitsCore (n + 1) n [] (by omega)
  have hread0 : readDigits 10 0 0 (Nat.toDigits 10 n) = (n, k) := by
    have := hread 0 0
    simpa [Nat.toDigits, readDigits] using this
  have hparse := parseIntChars_of_startsWithDigits _ n k hk (startsWithDigits_toDigits n) hread0
  have hstr : toStr (JSValue.num (n : Int)) = some (Nat.repr n) := rfl
  simp only [parseInt, hstr]
  have hlist : (Nat.repr n).toList = Nat.toDigits 10 n := by
    simp [Nat.repr, List.asString, String.toList]
  rw [hlist, hparse]

/-! C20 -/

theorem findIndex_append_last (orders : List Order) (o : Order) (k : Option Int)
    (hfront : ∀ x ∈ orders, idMatches k x = false) (hlast : idMatches k o = true) :
    findIndex (orders ++ [o]) k = some orders.length := by
  induction orders with
  | nil => simp [findIndex, hlast]
  | cons x rest ih =>
    have hx := hfront x (List.mem_cons_self _ _)
    have hrest := ih (fun y hy => hfront y (List.mem_cons_of_mem _ hy))
    simp [findIndex, hx, hrest]

theorem splice_append_last (orders : List Order) (o : Order) :
    splice (orders ++ [o]) orders.length = orders := by
  induction orders with
  | nil => rfl
  | cons x rest ih => simp [splice, ih]

/-- In a state that satisfies the invariant of `orders`, completing the id
that a 'Receive Order' has just assigned removes exactly the new order. -/
theorem complete_after_receive (s : State) (parameters completion : Params)
    (hinv : OrdersInvariant s)
    (hparse : parseInt (completion.get "order_id") = some (some (s.orderCounter + 1))) :
    webhook (step s ⟨"Receive Order", parameters⟩) "Complete Order" completion =
      { state := { orders := s.orders, stock := s.stock, orderCounter := s.orderCounter + 1 }
        response :=
          some { fulfillmentText :=
                   "✅ Order #" ++ numberToString (s.orderCounter + 1) ++
                   " has been completed and removed from the kitchen queue."
                 payload := none } } := by
  obtain ⟨_, hrange, _⟩ := hinv
  have hfront : ∀ x ∈ s.orders, idMatches (some (s.orderCounter + 1)) x = false := by
    intro x hx
    have := hrange x hx
    simp only [idMatches, decide_eq_false_iff_not]
    omega
  have hstep : step s ⟨"Receive Order", parameters⟩ = (receiveOrder s parameters).state := by
    simp [step, webhook]
  have hidx := findIndex_append_last s.orders
    { order_id := s.orderCounter + 1, order_type := parameters.get "order_type",
      table_number := jsOr (parameters.get "table_number") (JSValue.str "N/A"),
      items := parameters.get "food_items", status := JSValue.str "new" }
    (some (s.orderCounter + 1)) hfront (by simp [idMatches])
  have hspl := splice_append_last s.orders
    { order_id := s.orderCounter + 1, order_type := parameters.get "order_type",
      table_number := jsOr (parameters.get "table_number") (JSValue.str "N/A"),
      items := parameters.get "food_items", status := JSValue.str "new" }
  rw [hstep]
  simp [webhook, completeOrder, receiveOrder, hparse, hidx, hspl, numberText]

/-- C20. For every state reachable from the initial state, 'Receive Order'
followed by 'Complete Order' with the id just assigned answers with the
success text (never "not found") and restores the open-orders sequence to
exactly what it was before the order was placed, with stock unchanged and the
id counter advanced by one; starting from no open orders, a following 'Show
Current Orders' reports the empty queue. -/
theorem receive_then_complete_restores_queue (events : List Event) (parameters : Params) :
    webhook (step (run initialState events) ⟨"Receive Order", parameters⟩) "Complete Order"
        [("order_id", JSValue.num ((run initialState events).orderCounter + 1))] =
      { state :=
          { orders := (run initialState events).orders
            stock := (run initialState events).stock
            orderCounter := (run initialState events).orderCounter + 1 }
        response :=
          some { fulfillmentText :=
                   "✅ Order #" ++ numberToString ((run initialState events).orderCounter + 1) ++
                   " has been completed and removed from the kitchen queue."
                 payload := none } } ∧
    ((run initialState events).orders = [] →
      (webhook
        (webhook (step (run initialState events) ⟨"Receive Order", parameters⟩)
          "Complete Order"
          [("order_id", JSValue.num ((run initialState events).orderCounter + 1))]).state
        "Show Current Orders" []).response =
        some { fulfillmentText := "📭 No current orders in the queue.", payload := none }) := by
  have hinv := run_invariant events initialState initialState_invariant
  have hseed : 1000 ≤ (run initialState events).orderCounter := hinv.2.2
  have hnat : (((run initialState events).orderCounter + 1).toNat : Int) =
      (run initialState events).orderCounter + 1 := Int.toNat_of_nonneg (by omega)
  have hparse : parseInt (Params.get
      [("order_id", JSValue.num ((run initialState events).orderCounter + 1))] "order_id") =
      some (some ((run initialState events).orderCounter + 1)) := by
    have h := parseInt_num_of_nat ((run initialState events).orderCounter + 1).toNat
    rw [hnat] at h
    simpa [Params.get, getOwn] using h
  have hcomplete := complete_after_receive (run initialState events) parameters
    [("order_id", JSValue.num ((run initialState events).orderCounter + 1))] hinv hparse
  refine ⟨hcomplete, ?_⟩
  intro hempty
  rw [hcomplete]
  simp [webhook, showCurrentOrders, hempty]

end KitchenBot
